import Mathlib

/-!
Verification development for the tender-document graph-RAG pipeline
(`src/models/schema.py`, `src/pipeline/nodes.py`, `src/pipeline/graph.py`,
`src/pipeline/utils.py`, `src/database/neo4j_client.py`,
`src/config/settings.py`).

The Python source is shallowly embedded:

* Python/JSON values are the inductive `Json` (dicts are association
  lists of string keys, as produced by `neo4j` `record.data()` and by
  the `json` module).
* `datetime.datetime` is `PyDateTime`; `str(datetime)` and pydantic's
  datetime parsing are `PyDateTime.toChars` / `PyDateTime.parse?`.
* Exceptions are the inductive `PyErr`; fallible calls return `Except`.
* Python dict objects that are mutated through shared references
  (`PipelineState.performance_metrics`, a pydantic `model_copy` being a
  shallow copy) are modelled with an explicit store `MetricStore` of
  dictionaries addressed by `Nat` references.
* Wall-clock reads (`datetime.now()`, `get_duration()`) and the two LLM
  collaborators plus the Neo4j session are passed in as function
  arguments; tenacity/backoff retrying makes the collaborators
  attempt-indexed (`Nat → ...`).
-/

set_option maxRecDepth 4096

/-- JSON-like Python values (dicts have string keys, in insertion order). -/
inductive Json where
  | null : Json
  | bool (b : Bool) : Json
  | num (q : ℚ) : Json
  | str (s : String) : Json
  | arr (elems : List Json) : Json
  | obj (entries : List (String × Json)) : Json
deriving Repr

/-- A Python dictionary with string keys. -/
abbrev PyDict := List (String × Json)

/-- `d.get(k)` / `d[k]` on a Python dict: first binding of the key. -/
def dictGet (d : PyDict) (k : String) : Option Json :=
  (d.find? (fun kv => kv.1 = k)).map Prod.snd

/-- `k in d.keys()`. -/
def hasKey (d : PyDict) (k : String) : Bool :=
  d.any (fun kv => kv.1 = k)

/-- `datetime.datetime` with the fields that printing uses. -/
structure PyDateTime where
  year : Nat
  month : Nat
  day : Nat
  hour : Nat := 0
  minute : Nat := 0
  second : Nat := 0
  microsecond : Nat := 0
deriving DecidableEq, Repr

/-- Python exceptions crossing the boundaries the pipeline observes. -/
inductive PyErr where
  /-- generic `Exception(msg)` (LLM failures, parse failures, ...). -/
  | exc (msg : String) : PyErr
  /-- `neo4j.exceptions.ServiceUnavailable`. -/
  | serviceUnavailable (msg : String) : PyErr
  /-- `neo4j.exceptions.SessionExpired`. -/
  | sessionExpired (msg : String) : PyErr
  /-- pydantic `ValidationError`. -/
  | validationError (msg : String) : PyErr
  /-- `tenacity.RetryError` wrapping the last attempt's exception. -/
  | retryError (last : PyErr) : PyErr
deriving DecidableEq, Repr

/-- `src/config/settings.py` `Settings` (pipeline-relevant fields; the
environment file is not modelled, so the defaults stand). -/
structure Settings where
  DEFAULT_SEARCH_SCOPE : List String := ["Technical", "Requirements"]
  DEFAULT_RELEVANCE_THRESHOLD : ℚ := mkRat 7 10
  DEFAULT_MAX_RESULTS : Nat := 100
  DEFAULT_INCLUDE_METADATA : Bool := true
  MAX_RETRIES : Nat := 3
  RETRY_DELAY : ℚ := 1

/-- `get_settings()` (cached constructor, defaults only). -/
def settings : Settings := {}

/-- `QueryContext` (`src/models/schema.py`): field defaults as declared. -/
structure QueryContext where
  timestamp : PyDateTime
  search_scope : List String := []
  relevance_threshold : ℚ := mkRat 7 10
  max_results : Nat := 100
  include_metadata : Bool := true
deriving Repr

/-- pydantic validation of `QueryContext` at construction:
`relevance_threshold` in `[0,1]` (ge=0, le=1), `max_results ≥ 1` (ge=1). -/
def QueryContext.valid (c : QueryContext) : Prop :=
  0 ≤ c.relevance_threshold ∧ c.relevance_threshold ≤ 1 ∧ 1 ≤ c.max_results

/-- Modelled from the spec: the `QueryAnalysis` schema is imported by
`src/pipeline/nodes.py` from `src.models.schema` but its class is absent
from the sources; §4.1 of the spec fixes its fields (query intent, key
concepts, temporal aspects, document scope, relationship patterns,
compliance checks). -/
structure QueryAnalysis where
  query_intent : String
  key_concepts : List String := []
  temporal_aspects : Option PyDict := none
  document_scope : List String := []
  relationship_patterns : List String := []
  compliance_checks : List String := []
deriving Repr

/-- `QueryResult` (`src/models/schema.py`): plain record; the pydantic
validators are `QueryResult.validate_relationships` / `QueryResult.valid`
below. `content`/`metadata` are dicts, `relationships` a list of dicts. -/
structure QueryResult where
  node_id : String
  content : PyDict
  relevance_score : ℚ
  metadata : Option PyDict := none
  relationships : List PyDict := []
  timestamp : PyDateTime
deriving Repr

/-- `QueryResult.validate_relationships`: every relationship dict must
contain the keys `type` and `target`. -/
def validate_relationships (rels : List PyDict) : Bool :=
  rels.all (fun rel => hasKey rel "type" && hasKey rel "target")

/-- pydantic validation of a `QueryResult` at construction/validation
time: `relevance_score` in `[0,1]` (ge=0, le=1) and the
`validate_relationships` validator. -/
def QueryResult.valid (r : QueryResult) : Prop :=
  0 ≤ r.relevance_score ∧ r.relevance_score ≤ 1 ∧
    validate_relationships r.relationships = true

instance (r : QueryResult) : Decidable r.valid := by
  unfold QueryResult.valid; infer_instance

/-- A metric value (`Union[float, int, str]`). -/
inductive MetricVal where
  | num (q : ℚ) : MetricVal
  | str (s : String) : MetricVal
deriving DecidableEq, Repr

/-- One `performance_metrics` dictionary. -/
abbrev Metrics := List (String × MetricVal)

/-- The store of live `performance_metrics` dict objects; a
`PipelineState` holds a reference (index) into it, because pydantic's
`model_copy` copies the reference, not the dict. -/
abbrev MetricStore := List Metrics

/-- Allocate a fresh dict object in the store. -/
def MetricStore.alloc (st : MetricStore) (d : Metrics) : MetricStore × Nat :=
  (st ++ [d], st.length)

/-- Read the dict behind a reference. -/
def MetricStore.read (st : MetricStore) (ref : Nat) : Metrics :=
  (st.get? ref).getD []

/-- Python `d[name] = value`: replace in place or append. -/
def Metrics.setKey (d : Metrics) (name : String) (v : MetricVal) : Metrics :=
  if d.any (fun kv => kv.1 = name) then
    d.map (fun kv => if kv.1 = name then (kv.1, v) else kv)
  else d ++ [(name, v)]

/-- `PipelineState.add_metric` (mutates the dict object in the store). -/
def MetricStore.add_metric (st : MetricStore) (ref : Nat) (name : String)
    (v : MetricVal) : MetricStore :=
  st.set ref ((st.read ref).setKey name v)

/-- `PipelineState` (`src/models/schema.py`). `performance_metrics` is a
reference into the `MetricStore`; `analysis_results` is the attribute the
Analyze stage injects through `model_copy(update=...)` (pydantic applies
the update unvalidated). -/
structure PipelineState where
  original_query : String
  query_context : QueryContext
  enhanced_query : Option String := none
  cypher_query : Option String := none
  validation_status : Option Bool := none
  results : Option (List QueryResult) := none
  current_node : String
  history : List String := []
  error : Option String := none
  retry_count : Nat := 0
  performance_metrics : Nat
  start_time : PyDateTime
  analysis_results : Option QueryAnalysis := none
deriving Repr

/-! ### `str(datetime)` and pydantic's datetime parsing

Python prints a datetime as `YYYY-MM-DD HH:MM:SS` with a `.ffffff`
fractional part exactly when the microsecond field is non-zero, every
numeric field zero-padded; `json.dump(..., default=str)` applies this to
the `timestamp` fields, and a later `model_validate` lets pydantic parse
the very same shape back.  Digits are built from `Nat.digits 10`. -/

/-- The decimal digit characters, as a table. -/
def digitChar (d : Nat) : Char :=
  match d with
  | 0 => '0' | 1 => '1' | 2 => '2' | 3 => '3' | 4 => '4'
  | 5 => '5' | 6 => '6' | 7 => '7' | 8 => '8' | _ => '9'

/-- Numeric value of a decimal digit character (0 for non-digits). -/
def digitVal (c : Char) : Nat :=
  match c with
  | '0' => 0 | '1' => 1 | '2' => 2 | '3' => 3 | '4' => 4
  | '5' => 5 | '6' => 6 | '7' => 7 | '8' => 8 | '9' => 9
  | _ => 0

/-- Is this a decimal digit character? -/
def isDig (c : Char) : Bool :=
  match c with
  | '0' | '1' | '2' | '3' | '4' | '5' | '6' | '7' | '8' | '9' => true
  | _ => false

/-- Decimal print of a natural number, as characters. -/
def natChars (n : Nat) : List Char :=
  if n = 0 then ['0'] else ((Nat.digits 10 n).reverse.map digitChar)

/-- Zero-pad on the left to width `w` (Python `%0wd`). -/
def padChars (w n : Nat) : List Char :=
  List.replicate (w - (natChars n).length) '0' ++ natChars n

/-- Horner read-off of a big-endian decimal digit-character list. -/
def charsVal (cs : List Char) : Nat :=
  cs.foldl (fun a c => 10 * a + digitVal c) 0

/-- `str(datetime)` as a character list. -/
def PyDateTime.toChars (t : PyDateTime) : List Char :=
  padChars 4 t.year ++ '-' :: padChars 2 t.month ++ '-' :: padChars 2 t.day
    ++ ' ' :: padChars 2 t.hour ++ ':' :: padChars 2 t.minute
    ++ ':' :: padChars 2 t.second
    ++ (if t.microsecond = 0 then [] else '.' :: padChars 6 t.microsecond)

/-- `str(datetime)`. -/
def PyDateTime.toStr (t : PyDateTime) : String :=
  String.mk t.toChars

/-- Read a maximal run of digits; fails on an empty run. -/
def readNat (cs : List Char) : Option (Nat × List Char) :=
  match cs.takeWhile isDig with
  | [] => none
  | ds => some (charsVal ds, cs.dropWhile isDig)

/-- Expect one literal character. -/
def expectChar (c : Char) (cs : List Char) : Option (List Char) :=
  match cs with
  | c' :: rest => if c' = c then some rest else none
  | [] => none

/-- pydantic's parse of the `YYYY-MM-DD HH:MM:SS[.ffffff]` shape
produced by `str(datetime)`. -/
def PyDateTime.parseChars (cs : List Char) : Option PyDateTime := do
  let (y, cs) ← readNat cs
  let cs ← expectChar '-' cs
  let (mo, cs) ← readNat cs
  let cs ← expectChar '-' cs
  let (d, cs) ← readNat cs
  let cs ← expectChar ' ' cs
  let (h, cs) ← readNat cs
  let cs ← expectChar ':' cs
  let (mi, cs) ← readNat cs
  let cs ← expectChar ':' cs
  let (s, cs) ← readNat cs
  match cs with
  | [] => some ⟨y, mo, d, h, mi, s, 0⟩
  | '.' :: rest => do
      let (us, cs) ← readNat rest
      if cs = [] then some ⟨y, mo, d, h, mi, s, us⟩ else none
  | _ => none

/-- pydantic's datetime parse on strings. -/
def PyDateTime.parse? (s : String) : Option PyDateTime :=
  PyDateTime.parseChars s.data

/-- Decimal print of an integer. -/
def intStr (i : ℤ) : String :=
  if i < 0 then "-" ++ String.mk (natChars i.natAbs) else String.mk (natChars i.natAbs)

/-- Number rendering (exact on integers; a non-integer rational prints
as a fraction — no claim depends on float formatting). -/
def numDump (q : ℚ) : String :=
  if q.den = 1 then intStr q.num
  else intStr q.num ++ "/" ++ String.mk (natChars q.den)

/-! ### Retry wrappers

`tenacity.retry(stop=stop_after_attempt(N), wait=wait_exponential(...))`
as used on the three LLM stages of `src/pipeline/nodes.py`, and
`backoff.on_exception(backoff.expo, (ServiceUnavailable, SessionExpired),
max_tries=N)` as used on `Neo4jClient.execute_query`.  The external
world is attempt-indexed: attempt `i` of the wrapped call is `f i`. -/

/-- One pass of tenacity's retry loop: run attempts `i, i+1, ...` while
fuel remains; when the last allowed attempt fails, raise
`tenacity.RetryError` wrapping that attempt's exception (the decorators
in the source do not set `reraise=True`). -/
def tenacityGo (f : Nat → Except PyErr α) (i : Nat) : Nat → Except PyErr α
  | 0 => .error (.exc "tenacity: stop_after_attempt(0)")
  | fuel + 1 =>
    match f i with
    | .ok a => .ok a
    | .error e => if fuel = 0 then .error (.retryError e) else tenacityGo f (i + 1) fuel

/-- `@retry(stop=stop_after_attempt(maxAttempts), ...)` applied to `f`. -/
def tenacityCall (maxAttempts : Nat) (f : Nat → Except PyErr α) : Except PyErr α :=
  tenacityGo f 0 maxAttempts

/-- tenacity `wait_exponential(multiplier=m)`: the delay before retrying
after attempt number `k` (`k ≥ 1`), in seconds. -/
def wait_exponential (multiplier : ℚ) (attemptNumber : Nat) : ℚ :=
  multiplier * 2 ^ (attemptNumber - 1)

/-- The exception classes `backoff.on_exception` is told to retry on:
`(ServiceUnavailable, SessionExpired)`. -/
def backoffRetryable : PyErr → Bool
  | .serviceUnavailable _ => true
  | .sessionExpired _ => true
  | _ => false

/-- One pass of backoff's loop: retry the listed exception kinds while
tries remain; the give-up path re-raises the original exception unchanged. -/
def backoffGo (f : Nat → Except PyErr α) (i : Nat) : Nat → Except PyErr α
  | 0 => .error (.exc "backoff: max_tries must be positive")
  | fuel + 1 =>
    match f i with
    | .ok a => .ok a
    | .error e =>
      if backoffRetryable e && fuel != 0 then backoffGo f (i + 1) fuel else .error e

/-- `@backoff.on_exception(backoff.expo, (ServiceUnavailable,
SessionExpired), max_tries=maxTries)` applied to `f`; `maxTries` counts
calls in total. -/
def backoffCall (maxTries : Nat) (f : Nat → Except PyErr α) : Except PyErr α :=
  backoffGo f 0 maxTries

/-! ### Collaborators (`neo4j`, LLM callers) -/

/-- A relationship dict as returned inside a Neo4j row
(`rel.get("type")`, `rel.get("end_node")`, `rel.get("properties", ...)`). -/
structure NeoRel where
  type : Option String := none
  end_node : Option String := none
  properties : Option PyDict := none
deriving Repr

/-- One row of `Neo4jClient.execute_query` output (`record.data()`), with
the keys `query_execution` reads; an absent key is `none`. -/
structure Row where
  id : Option Json := none
  properties : Option PyDict := none
  score : Option ℚ := none
  metadata : Option PyDict := none
  relationships : Option (List NeoRel) := none
deriving Repr

/-- `Neo4jClient.execute_query` (`src/database/neo4j_client.py`): the
session's `run` (attempt-indexed, abstracting the server) under the
backoff decorator with `max_tries=settings.MAX_RETRIES`. -/
def Neo4jClient.execute_query
    (session : Nat → String → PyDict → Except PyErr (List Row))
    (query : String) (parameters : PyDict) : Except PyErr (List Row) :=
  backoffCall settings.MAX_RETRIES (fun i => session i query parameters)

/-- A role-tagged chat message. -/
structure Message where
  role : String
  content : String
deriving Repr

/-- `str(message)`: role-prefixed rendering (abstraction of langchain's
message repr; no claim depends on the exact text). -/
def Message.toStr (m : Message) : String :=
  m.role ++ ": " ++ m.content

/-- An LLM response (`response.content` is what the stages consume). -/
structure LLMResponse where
  content : String
deriving Repr

/-- An LLM collaborator: `ainvoke(messages)`. -/
abbrev LLM := List Message → Except PyErr LLMResponse

/-! ### Stage functions (`src/pipeline/nodes.py`)

Each stage body is the undecorated function; the tenacity-wrapped
versions follow.  `now` abstracts `datetime.now()` and `dur` the value
`get_duration()` returns at the stage's metric update (wall-clock reads);
the progress-bar side effects are dropped.  Long free-text prompt
literals are abbreviated — no claim depends on prompt wording. -/

/-- The `query_analysis` system prompt (abbreviated free text). -/
def analysis_system_prompt : String :=
  "You are an expert system specialized in analyzing queries for a tender document knowledge graph."

/-- The messages `query_analysis` sends (system prompt + formatted
analysis-requirements template mentioning the query). -/
def analysisMessages (query : String) : List Message :=
  [⟨"system", analysis_system_prompt⟩,
   ⟨"human", analysis_system_prompt ++ " ANALYSIS REQUIREMENTS: 1. Query Intent: "
      ++ query ++ " ... Return the analysis in the exact format specified."⟩]

/-- `PipelineNodes.query_analysis` body: call GPT-4, parse a
`QueryAnalysis`, then `model_copy` with a **fresh** `QueryContext` built
only from `search_scope` and `timestamp`, set `enhanced_query` to the
intent, inject `analysis_results`, extend `history`, and mutate the
(shared) metrics dict via `_update_metrics`. -/
def query_analysis_body (gpt4 : LLM)
    (parseAnalysis : String → Except PyErr QueryAnalysis)
    (now : PyDateTime) (dur : ℚ) (st : MetricStore) (state : PipelineState) :
    Except PyErr (MetricStore × PipelineState) := do
  let messages := analysisMessages state.original_query
  let response ← gpt4 messages
  let analysis ← parseAnalysis response.content
  let updated : PipelineState := { state with
    query_context := { search_scope := analysis.document_scope, timestamp := now },
    enhanced_query := some analysis.query_intent,
    analysis_results := some analysis,
    history := state.history ++ messages.map Message.toStr ++ [response.content] }
  let st := st.add_metric updated.performance_metrics "analysis_duration" (.num dur)
  let st := st.add_metric updated.performance_metrics "analysis_confidence" (.num (mkRat 19 20))
  pure (st, updated)

/-- Python list-of-strings printing, abbreviated (no claim depends on
the exact text interpolated into a prompt). -/
def listStrRepr (xs : List String) : String :=
  "[" ++ String.intercalate ", " xs ++ "]"

/-- The f-string rendering of `state.analysis_results` (`None` or the
dict of the analysis; abbreviated free text). -/
def analysisStr : Option QueryAnalysis → String
  | none => "None"
  | some a => "query_intent: " ++ a.query_intent
      ++ ", key_concepts: " ++ listStrRepr a.key_concepts
      ++ ", document_scope: " ++ listStrRepr a.document_scope

/-- The messages `query_enhancement` sends (system prompt + original
query + printed analysis results). -/
def enhancementMessages (state : PipelineState) : List Message :=
  [⟨"system", "You are an expert in enhancing queries for tender document retrieval."⟩,
   ⟨"human", "Original query: " ++ state.original_query
      ++ " Analysis results: " ++ analysisStr state.analysis_results
      ++ " ... Return the enhanced query specification."⟩]

/-- `PipelineNodes.query_enhancement` body. -/
def query_enhancement_body (claude : LLM)
    (dur : ℚ) (st : MetricStore) (state : PipelineState) :
    Except PyErr (MetricStore × PipelineState) := do
  let enhancement_prompt := enhancementMessages state
  let response ← claude enhancement_prompt
  let updated : PipelineState := { state with
    enhanced_query := some response.content,
    history := state.history ++ enhancement_prompt.map Message.toStr ++ [response.content] }
  let st := st.add_metric updated.performance_metrics "enhancement_duration" (.num dur)
  let st := st.add_metric updated.performance_metrics "enhancement_quality_score" (.num (mkRat 9 10))
  pure (st, updated)

/-- The messages `cypher_generation` sends (enhanced query, document
types, relevance threshold; an unset `enhanced_query` prints as `None`). -/
def cypherMessages (state : PipelineState) : List Message :=
  [⟨"system", "You are an expert in Neo4j and Cypher query optimization."⟩,
   ⟨"human", "Generate an optimized Cypher query for: "
      ++ state.enhanced_query.getD "None"
      ++ " ... Document types: " ++ listStrRepr state.query_context.search_scope
      ++ " Relevance threshold: " ++ numDump state.query_context.relevance_threshold⟩]

/-- `PipelineNodes.cypher_generation` body. -/
def cypher_generation_body (claude : LLM)
    (dur : ℚ) (st : MetricStore) (state : PipelineState) :
    Except PyErr (MetricStore × PipelineState) := do
  let messages := cypherMessages state
  let response ← claude messages
  let updated : PipelineState := { state with
    cypher_query := some response.content,
    history := state.history ++ messages.map Message.toStr ++ [response.content] }
  let st := st.add_metric updated.performance_metrics "cypher_generation_duration" (.num dur)
  let st := st.add_metric updated.performance_metrics "query_complexity_score" (.num (mkRat 17 20))
  pure (st, updated)

/-- `str()` applied to a row's `id` value (`str(r.get("id"))`): exact for
`None`, booleans, strings and integers — the shapes node ids take;
other values get a structural placeholder no claim depends on. -/
def pyStr : Json → String
  | .null => "None"
  | .bool b => cond b "True" "False"
  | .num q => if q.den = 1 then intStr q.num
              else intStr q.num ++ "/" ++ String.mk (natChars q.den)
  | .str s => s
  | .arr _ => "[...]"
  | .obj _ => "\x7b...\x7d"

/-- `None` ↦ `Json.null`, `some s` ↦ JSON string (a relationship's
`type`/`end_node` value as placed into the result dict). -/
def optJsonStr : Option String → Json
  | none => Json.null
  | some s => Json.str s

/-- The relationship dict `query_execution` builds for each row
relationship: `type ← rel.get("type")`, `target ← rel.get("end_node")`,
`properties ← rel.get("properties", ...) or empty dict`. -/
def relToDict (rel : NeoRel) : PyDict :=
  [("type", optJsonStr rel.type),
   ("target", optJsonStr rel.end_node),
   ("properties", Json.obj (rel.properties.getD []))]

/-- The pydantic `QueryResult(...)` constructor: field assignment plus
the declared validation (`relevance_score` in `[0,1]`,
`validate_relationships`); a violation raises `ValidationError`. -/
def QueryResult.mk? (node_id : String) (content : PyDict) (relevance_score : ℚ)
    (metadata : Option PyDict) (relationships : List PyDict)
    (timestamp : PyDateTime) : Except PyErr QueryResult :=
  if 0 ≤ relevance_score ∧ relevance_score ≤ 1 then
    if validate_relationships relationships then
      pure ⟨node_id, content, relevance_score, metadata, relationships, timestamp⟩
    else .error (.validationError "Relationship missing required keys")
  else .error (.validationError "relevance_score out of range")

/-- The row-to-result mapping inside `query_execution`: id stringified,
content from `properties` (empty dict default), score defaulting to
`1.0`, metadata gated by `include_metadata`, relationships mapped
field-for-field. -/
def rowToResult (ctx : QueryContext) (now : PyDateTime) (r : Row) :
    Except PyErr QueryResult :=
  QueryResult.mk? (pyStr (r.id.getD .null)) (r.properties.getD [])
    (r.score.getD 1)
    (if ctx.include_metadata then r.metadata else none)
    ((r.relationships.getD []).map relToDict) now

/-- The `params` dict `query_execution` derives from the context
(document types, threshold, max results). -/
def execParams (state : PipelineState) : PyDict :=
  [("document_types", Json.arr (state.query_context.search_scope.map Json.str)),
   ("threshold", Json.num state.query_context.relevance_threshold),
   ("max_results", Json.num state.query_context.max_results)]

/-- `PipelineNodes.query_execution` body: build `execParams` from the
context, call the database client, map rows to `QueryResult`s, and
`model_copy` with the results and a **new** metrics dict
(`state.performance_metrics | \x7b...\x7d` allocates a fresh dict). -/
def query_execution_body (executeQuery : String → PyDict → Except PyErr (List Row))
    (now : PyDateTime) (dur : ℚ) (st : MetricStore) (state : PipelineState) :
    Except PyErr (MetricStore × PipelineState) := do
  let results ← executeQuery (state.cypher_query.getD "None") (execParams state)
  let processed ← results.mapM (rowToResult state.query_context now)
  let merged := (((st.read state.performance_metrics).setKey
      "execution_time" (.num dur)).setKey
      "result_count" (.num processed.length))
  let (st, ref) := st.alloc merged
  pure (st, { state with results := some processed, performance_metrics := ref })

/-- `query_analysis` as decorated:
`@retry(stop=stop_after_attempt(settings.MAX_RETRIES),
wait=wait_exponential(multiplier=settings.RETRY_DELAY))`. -/
def query_analysis (gpt4 : Nat → LLM)
    (parseAnalysis : String → Except PyErr QueryAnalysis)
    (now : PyDateTime) (dur : ℚ) (st : MetricStore) (state : PipelineState) :
    Except PyErr (MetricStore × PipelineState) :=
  tenacityCall settings.MAX_RETRIES
    (fun i => query_analysis_body (gpt4 i) parseAnalysis now dur st state)

/-- `query_enhancement` as decorated (same tenacity wrapper). -/
def query_enhancement (claude : Nat → LLM)
    (dur : ℚ) (st : MetricStore) (state : PipelineState) :
    Except PyErr (MetricStore × PipelineState) :=
  tenacityCall settings.MAX_RETRIES
    (fun i => query_enhancement_body (claude i) dur st state)

/-- `cypher_generation` as decorated (same tenacity wrapper). -/
def cypher_generation (claude : Nat → LLM)
    (dur : ℚ) (st : MetricStore) (state : PipelineState) :
    Except PyErr (MetricStore × PipelineState) :=
  tenacityCall settings.MAX_RETRIES
    (fun i => cypher_generation_body (claude i) dur st state)

/-- `query_execution`: **undecorated** — the only retrying on this path
is the backoff inside `Neo4jClient.execute_query`. -/
def query_execution (session : Nat → String → PyDict → Except PyErr (List Row))
    (now : PyDateTime) (dur : ℚ) (st : MetricStore) (state : PipelineState) :
    Except PyErr (MetricStore × PipelineState) :=
  query_execution_body (Neo4jClient.execute_query session) now dur st state

/-! ### Workflow graph (`src/pipeline/graph.py`) -/

/-- `check_success`: a state advances when its `error` field is unset. -/
def check_success (state : PipelineState) : Bool :=
  state.error = none

/-- The `recovery_paths` table inside `handle_error`. -/
def recovery_paths : List (String × String) :=
  [("query_analysis", "retry_analysis"),
   ("query_enhancement", "retry_enhancement"),
   ("cypher_generation", "retry_cypher"),
   ("query_execution", "retry_execution")]

/-- `handle_error`: inspect `current_node` and `retry_count`; at or past
`MAX_RETRIES` answer `"end"`, otherwise the node's recovery label
(`"end"` for unknown nodes).  It only *reads* the state. -/
def handle_error (state : PipelineState) : String :=
  if settings.MAX_RETRIES ≤ state.retry_count then "end"
  else (((recovery_paths.find? (fun kv => kv.1 = state.current_node)).map
    Prod.snd).getD "end")

/-- The conditional-edge table attached to `error_handler`: recovery
label ↦ next node (`"end" ↦ END`). -/
def error_handler_edges : List (String × String) :=
  [("retry_analysis", "query_analysis"),
   ("retry_enhancement", "query_enhancement"),
   ("retry_cypher", "cypher_generation"),
   ("retry_execution", "query_execution"),
   ("end", "END")]

/-- One transition out of `error_handler`: a langgraph conditional-edge
function receives the state and returns only a label, so the state
passes through unchanged while `handle_error`'s label is resolved
through the edge table. -/
def errorHandlerStep (state : PipelineState) : PipelineState × String :=
  (state,
    (((error_handler_edges.find? (fun kv => kv.1 = handle_error state)).map
      Prod.snd).getD "END"))

/-- The collaborators a pipeline run consumes. -/
structure Collaborators where
  gpt4 : Nat → LLM
  claudeEnh : Nat → LLM
  claudeCyp : Nat → LLM
  parseAnalysis : String → Except PyErr QueryAnalysis
  session : Nat → String → PyDict → Except PyErr (List Row)

/-- The initial `PipelineState` built by `run_pipeline`
(`PipelineState(original_query=query, query_context=context or
QueryContext(), current_node="query_analysis", retry_count=0)`); `ref`
is its freshly created metrics dict. -/
def initial_state (query : String) (context : Option QueryContext)
    (now : PyDateTime) (ref : Nat) : PipelineState :=
  { original_query := query,
    query_context := context.getD { timestamp := now },
    current_node := "query_analysis",
    retry_count := 0,
    performance_metrics := ref,
    start_time := now }

/-- `TenderPipelineGraph.run_pipeline`: drive the state along the
success edges `query_analysis → query_enhancement → cypher_generation →
query_execution → END`; a raising node aborts `ainvoke` with that
exception (the nodes never set `error`, so `check_success` holds on
every produced state). -/
def run_pipeline (co : Collaborators) (now : PyDateTime) (dur : ℚ)
    (query : String) (context : Option QueryContext) :
    Except PyErr (MetricStore × PipelineState) := do
  let (st0, ref) := MetricStore.alloc [] []
  let s0 := initial_state query context now ref
  let (st1, s1) ← query_analysis co.gpt4 co.parseAnalysis now dur st0 s0
  let (st2, s2) ← query_enhancement co.claudeEnh dur st1 s1
  let (st3, s3) ← cypher_generation co.claudeCyp dur st2 s2
  query_execution co.session now dur st3 s3

/-! ### Result persistence (`src/pipeline/utils.py`)

`save_results(format="json")` writes `json.dump([r.model_dump() for r in
results], f, indent=2, default=str)`; `load_results` reads the file and
runs `QueryResult.model_validate` per record.  The file is modelled at
the JSON *value* level (`json.dump` then `json.load` of a value is the
identity on the value; indentation only affects whitespace), with
`default=str` applied to the one non-JSON field, the datetime. -/

/-- `r.model_dump()` as serialized by `json.dump(..., default=str)`. -/
def model_dump_result (r : QueryResult) : Json :=
  Json.obj
    [("node_id", Json.str r.node_id),
     ("content", Json.obj r.content),
     ("relevance_score", Json.num r.relevance_score),
     ("metadata", match r.metadata with
        | none => Json.null
        | some m => Json.obj m),
     ("relationships", Json.arr (r.relationships.map Json.obj)),
     ("timestamp", Json.str r.timestamp.toStr)]

/-- `PipelineUtils.save_results` (json branch): the JSON value written. -/
def save_results (results : List QueryResult) : Json :=
  Json.arr (results.map model_dump_result)

/-- `QueryResult.model_validate` on one JSON record: typed field
extraction (absent optional fields take their declared defaults, absent
`timestamp` its `datetime.now` factory — hence `now`), then the model's
validators via `QueryResult.mk?`. -/
def model_validate_result (now : PyDateTime) (j : Json) :
    Except PyErr QueryResult := do
  let d ← match j with
    | Json.obj d => pure d
    | _ => .error (.validationError "not an object")
  let node_id ← match dictGet d "node_id" with
    | some (Json.str s) => pure s
    | _ => .error (.validationError "node_id")
  let content ← match dictGet d "content" with
    | some (Json.obj c) => pure c
    | _ => .error (.validationError "content")
  let score ← match dictGet d "relevance_score" with
    | some (Json.num q) => pure q
    | _ => .error (.validationError "relevance_score")
  let metadata ← match dictGet d "metadata" with
    | none => pure none
    | some Json.null => pure none
    | some (Json.obj m) => pure (some m)
    | _ => .error (.validationError "metadata")
  let rels ← match dictGet d "relationships" with
    | none => pure []
    | some (Json.arr xs) => xs.mapM (fun x => match x with
        | Json.obj e => pure e
        | _ => .error (.validationError "relationship"))
    | _ => .error (.validationError "relationships")
  let ts ← match dictGet d "timestamp" with
    | none => pure now
    | some (Json.str s) => match PyDateTime.parse? s with
        | some t => pure t
        | none => .error (.validationError "timestamp")
    | _ => .error (.validationError "timestamp")
  QueryResult.mk? node_id content score metadata rels ts

/-- `PipelineUtils.load_results` (json branch) on the loaded value. -/
def load_results (now : PyDateTime) (j : Json) :
    Except PyErr (List QueryResult) :=
  match j with
  | Json.arr xs => xs.mapM (model_validate_result now)
  | _ => .error (.validationError "not a list")

/-! ### `cache_key` (`src/pipeline/utils.py`)

`json.dumps(canonical, sort_keys=True)` then `hashlib.sha256(...).
hexdigest()`.  `dumpsSorted` renders with keys sorted at every level
(escaping is exact for quote/backslash; numeric rendering is decimal —
neither affects any claim, which only need that equal values render
equally). -/

/-- JSON string escaping for the characters the contexts use. -/
def escapeChar (c : Char) : List Char :=
  if c = '"' ∨ c = '\\' then ['\\', c] else [c]

/-- A JSON string literal. -/
def dumpStr (s : String) : String :=
  "\"" ++ String.mk (s.data.map escapeChar).flatten ++ "\""

/-- Render a JSON object from its already-rendered entries: order the
entries by key (`sort_keys=True`) and join with the default separators. -/
def dumpsObjRendered (entries : List (String × String)) : String :=
  "\x7b" ++ String.intercalate ", "
    ((entries.mergeSort (fun a b => a.1 ≤ b.1)).map
      (fun kv => dumpStr kv.1 ++ ": " ++ kv.2)) ++ "\x7d"

/-- `json.dumps(..., sort_keys=True)` with the default separators:
object entries are rendered then ordered by key (the sort looks only at
keys, so sorting before or after rendering is the same string). -/
def dumpsSorted : Json → String
  | Json.null => "null"
  | Json.bool b => cond b "true" "false"
  | Json.num q => numDump q
  | Json.str s => dumpStr s
  | Json.arr xs =>
    "[" ++ String.intercalate ", " (xs.attach.map (fun x => dumpsSorted x.1)) ++ "]"
  | Json.obj kvs =>
    dumpsObjRendered (kvs.attach.map (fun kv => (kv.1.1, dumpsSorted kv.1.2)))
decreasing_by
  · have := List.sizeOf_lt_of_mem x.2
    simp only [Json.arr.sizeOf_spec]
    omega
  · have h1 := List.sizeOf_lt_of_mem kv.2
    have h2 : sizeOf kv.1.2 < sizeOf kv.1 := by
      obtain ⟨⟨k, v⟩, hk⟩ := kv
      simp
    simp only [Json.obj.sizeOf_spec]
    omega

namespace SHA256

/-- 32-bit wrap. -/
def w32 (n : Nat) : Nat := n % 4294967296

/-- Rotate a 32-bit word right by `n`. -/
def rotr (x n : Nat) : Nat := x / 2 ^ n + x % 2 ^ n * 2 ^ (32 - n)

/-- The `Ch` function. -/
def ch (x y z : Nat) : Nat := (x &&& y) ^^^ ((x ^^^ 4294967295) &&& z)

/-- The `Maj` function. -/
def maj (x y z : Nat) : Nat := (x &&& y) ^^^ (x &&& z) ^^^ (y &&& z)

/-- Σ0. -/
def bigSigma0 (x : Nat) : Nat := rotr x 2 ^^^ rotr x 13 ^^^ rotr x 22

/-- Σ1. -/
def bigSigma1 (x : Nat) : Nat := rotr x 6 ^^^ rotr x 11 ^^^ rotr x 25

/-- σ0. -/
def smallSigma0 (x : Nat) : Nat := rotr x 7 ^^^ rotr x 18 ^^^ (x / 2 ^ 3)

/-- σ1. -/
def smallSigma1 (x : Nat) : Nat := rotr x 17 ^^^ rotr x 19 ^^^ (x / 2 ^ 10)

/-- The round constants (decimal, FIPS 180-4 order). -/
def K : List Nat :=
  [1116352408, 1899447441, 3049323471, 3921009573,
   961987163, 1508970993, 2453635748, 2870763221,
   3624381080, 310598401, 607225278, 1426881987,
   1925078388, 2162078206, 2614888103, 3248222580,
   3835390401, 4022224774, 264347078, 604807628,
   770255983, 1249150122, 1555081692, 1996064986,
   2554220882, 2821834349, 2952996808, 3210313671,
   3336571891, 3584528711, 113926993, 338241895,
   666307205, 773529912, 1294757372, 1396182291,
   1695183700, 1986661051, 2177026350, 2456956037,
   2730485921, 2820302411, 3259730800, 3345764771,
   3516065817, 3600352804, 4094571909, 275423344,
   430227734, 506948616, 659060556, 883997877,
   958139571, 1322822218, 1537002063, 1747873779,
   1955562222, 2024104815, 2227730452, 2361852424,
   2428436474, 2756734187, 3204031479, 3329325298]

/-- The initial hash value (decimal, FIPS 180-4 order). -/
def H0 : List Nat :=
  [1779033703, 3144134277, 1013904242, 2773480762,
   1359893119, 2600822924, 528734635, 1541459225]

/-- Big-endian bytes of `n`, width `w`. -/
def beBytes (w n : Nat) : List Nat :=
  (List.range w).map (fun i => n / 2 ^ (8 * (w - 1 - i)) % 256)

/-- Merkle–Damgård padding of a byte message. -/
def padMessage (msg : List Nat) : List Nat :=
  let L := msg.length
  msg ++ 0x80 :: List.replicate ((119 - L % 64) % 64) 0 ++ beBytes 8 (8 * L)

/-- Split into 64-byte blocks. -/
def chunks64 : List Nat → List (List Nat)
  | [] => []
  | b :: bs => (b :: bs).take 64 :: chunks64 ((b :: bs).drop 64)
termination_by l => l.length
decreasing_by simp; omega

/-- The `t`-th big-endian 32-bit word of a block. -/
def wordAt (block : List Nat) (t : Nat) : Nat :=
  block.getD (4 * t) 0 * 2 ^ 24 + block.getD (4 * t + 1) 0 * 2 ^ 16 +
    block.getD (4 * t + 2) 0 * 2 ^ 8 + block.getD (4 * t + 3) 0

/-- The 64-entry message schedule of a block. -/
def msgSchedule (block : List Nat) : List Nat :=
  (List.range 64).foldl
    (fun ws t =>
      if t < 16 then ws ++ [wordAt block t]
      else ws ++ [w32 (w32 (smallSigma1 (ws.getD (t - 2) 0)) + ws.getD (t - 7) 0 +
        w32 (smallSigma0 (ws.getD (t - 15) 0)) + ws.getD (t - 16) 0)])
    []

/-- One compression round on the working variables `[a,...,h]`. -/
def round (ws : List Nat) (st : List Nat) (t : Nat) : List Nat :=
  match st with
  | [a, b, c, d, e, f, g, h] =>
    let t1 := w32 (h + w32 (bigSigma1 e) + w32 (ch e f g) + K.getD t 0 + ws.getD t 0)
    let t2 := w32 (w32 (bigSigma0 a) + w32 (maj a b c))
    [w32 (t1 + t2), a, b, c, w32 (d + t1), e, f, g]
  | st => st

/-- Compress one block into the running hash. -/
def compressBlock (h : List Nat) (block : List Nat) : List Nat :=
  let st := (List.range 64).foldl (round (msgSchedule block)) h
  (h.zip st).map (fun p => w32 (p.1 + p.2))

/-- A lowercase hex digit. -/
def hexChar (d : Nat) : Char :=
  match d with
  | 0 => '0' | 1 => '1' | 2 => '2' | 3 => '3' | 4 => '4' | 5 => '5'
  | 6 => '6' | 7 => '7' | 8 => '8' | 9 => '9' | 10 => 'a' | 11 => 'b'
  | 12 => 'c' | 13 => 'd' | 14 => 'e' | _ => 'f'

/-- Eight hex digits of a 32-bit word. -/
def hexWord (x : Nat) : String :=
  String.mk ((List.range 8).map (fun i => hexChar (x / 16 ^ (7 - i) % 16)))

/-- SHA-256 hex digest of a byte message. -/
def digestBytes (msg : List Nat) : String :=
  ((chunks64 (padMessage msg)).foldl compressBlock H0).foldl
    (fun acc x => acc ++ hexWord x) ""

end SHA256

/-- `hashlib.sha256(s.encode()).hexdigest()`. -/
def sha256hex (s : String) : String :=
  SHA256.digestBytes (s.toUTF8.data.toList.map UInt8.toNat)

/-- `PipelineUtils.cache_key`: sha256 of the canonical (sorted-keys)
serialization of the query and context. -/
def cache_key (query : String) (context : PyDict) : String :=
  sha256hex (dumpsSorted (Json.obj
    [("query", Json.str query), ("context", Json.obj context)]))

/-! ### Concrete fixtures (mirroring `tests/conftest.py`) -/

/-- A fixed wall-clock instant for concrete runs. -/
def t0 : PyDateTime := ⟨2024, 1, 15, 10, 30, 0, 0⟩

/-- The sample caller context (`sample_query_context`). -/
def testContext : QueryContext :=
  { timestamp := t0, search_scope := ["Technical", "Requirements"],
    relevance_threshold := mkRat 4 5, max_results := 50, include_metadata := true }

/-- The sample input state (`sample_pipeline_state`); its metrics dict is
object `0` of `store0`. -/
def testState : PipelineState :=
  { original_query := "What are the network infrastructure requirements?",
    query_context := testContext,
    current_node := "query_analysis",
    retry_count := 0,
    performance_metrics := 0,
    start_time := t0 }

/-- A state whose retry budget is exhausted. -/
def exhaustedState : PipelineState := { testState with retry_count := 3 }

/-- A one-object store holding `testState`'s (empty) metrics dict. -/
def store0 : MetricStore := [[]]

/-- A deterministic LLM answering a fixed completion. -/
def okLLM (content : String) : LLM := fun _ => .ok ⟨content⟩

/-- The conftest-style analysis a deterministic parser produces. -/
def testAnalysis : QueryAnalysis :=
  { query_intent := "Find network infrastructure requirements",
    key_concepts := ["network", "infrastructure", "requirements"],
    document_scope := ["Technical", "Requirements"] }

/-- A deterministic parser. -/
def testParse : String → Except PyErr QueryAnalysis := fun _ => .ok testAnalysis

/-- The conftest mock row: id `"123"`, score `0.95`, one `REQUIRES`
relationship to `"456"` with `priority: high`. -/
def row123 : Row :=
  { id := some (Json.str "123"),
    properties := some [("title", Json.str "Network Infrastructure Tender")],
    score := some (mkRat 19 20),
    metadata := some [("document_type", Json.str "Technical")],
    relationships := some
      [{ type := some "REQUIRES", end_node := some "456",
         properties := some [("priority", Json.str "high")] }] }

/-! ## Claims -/

/-- **C1, counterexample.**  At a concrete state routed to the error
handler (`current_node = "query_analysis"`, `retry_count = 0 <
MAX_RETRIES`), the recovery transition re-enters the failing node but
passes the state through **unchanged**: `retry_count` stays `0`, not
`1` — `handle_error` only returns a routing label and nothing in
`graph.py` increments the counter. -/
theorem C1_counterexample :
    errorHandlerStep testState = (testState, "query_analysis") ∧
    testState.retry_count = 0 := by
  constructor
  · rfl
  · rfl

/-- **C1, amended.**  For every state the error handler inspects
`current_node` and `retry_count`: with `retry_count ≥ MAX_RETRIES` it
routes to the terminal `END`, and otherwise it routes back to the very
working node recorded in `current_node`; in both cases the state — its
`retry_count` included — is returned unchanged (no increment happens). -/
theorem C1_amended_router (s : PipelineState) :
    (settings.MAX_RETRIES ≤ s.retry_count → errorHandlerStep s = (s, "END")) ∧
    (s.retry_count < settings.MAX_RETRIES →
      s.current_node ∈ ["query_analysis", "query_enhancement",
        "cypher_generation", "query_execution"] →
      errorHandlerStep s = (s, s.current_node)) := by
  constructor
  · intro h
    simp [errorHandlerStep, handle_error, if_pos h, error_handler_edges]
  · intro h hmem
    have hlt : ¬ settings.MAX_RETRIES ≤ s.retry_count := by omega
    simp only [List.mem_cons, List.not_mem_nil, or_false] at hmem
    rcases hmem with h1 | h1 | h1 | h1 <;>
      simp [errorHandlerStep, handle_error, if_neg hlt, recovery_paths,
        error_handler_edges, h1, List.find?]

/-- **C1, witness.**  The amended router at two concrete states: an
exhausted one goes to `END`, a fresh failing one re-enters
`query_analysis`. -/
theorem C1_amended_router_witness :
    errorHandlerStep exhaustedState = (exhaustedState, "END") ∧
    errorHandlerStep testState = (testState, "query_analysis") :=
  ⟨(C1_amended_router exhaustedState).1 (by decide),
   (C1_amended_router testState).2 (by decide) (by simp [testState])⟩

/-! ### Lemmas about the tenacity loop (shared) -/

/-- The tenacity loop looks at the attempts `i, ..., i+fuel-1` only. -/
theorem tenacityGo_congr {α : Type} (f g : Nat → Except PyErr α) (i fuel : Nat)
    (h : ∀ j < fuel, f (i + j) = g (i + j)) :
    tenacityGo f i fuel = tenacityGo g i fuel := by
  induction fuel generalizing i with
  | zero => rfl
  | succ n ih =>
    have h0 : f i = g i := by simpa using h 0 (by omega)
    simp only [tenacityGo, h0]
    cases g i with
    | ok a => rfl
    | error e =>
      by_cases hn : n = 0
      · simp [hn]
      · simp only [if_neg hn]
        exact ih (i + 1) (fun j hj => by
          have := h (j + 1) (by omega)
          simpa [Nat.add_assoc, Nat.add_comm 1 j] using this)

/-- The tenacity loop returns the first successful attempt's value. -/
theorem tenacityGo_ok {α : Type} (f : Nat → Except PyErr α) (i fuel k : Nat) (a : α)
    (hk : k < fuel) (hfail : ∀ j < k, ∃ e, f (i + j) = .error e)
    (hok : f (i + k) = .ok a) :
    tenacityGo f i fuel = .ok a := by
  induction fuel generalizing i k with
  | zero => omega
  | succ n ih =>
    cases k with
    | zero =>
      have : f i = .ok a := by simpa using hok
      simp [tenacityGo, this]
    | succ m =>
      obtain ⟨e, he⟩ := hfail 0 (by omega)
      have he' : f i = .error e := by simpa using he
      have hn : n ≠ 0 := by omega
      simp only [tenacityGo, he', if_neg hn]
      exact ih (i + 1) m (by omega)
        (fun j hj => by
          obtain ⟨e', he''⟩ := hfail (j + 1) (by omega)
          exact ⟨e', by simpa [Nat.add_assoc, Nat.add_comm 1 j] using he''⟩)
        (by simpa [Nat.add_assoc, Nat.add_comm 1 m] using hok)

/-- When every allowed attempt fails, the tenacity loop raises
`RetryError` wrapping the **last** attempt's exception. -/
theorem tenacityGo_exhaust {α : Type} (f : Nat → Except PyErr α) (i fuel : Nat)
    (e : Nat → PyErr) (hpos : 0 < fuel)
    (hfail : ∀ j < fuel, f (i + j) = .error (e (i + j))) :
    tenacityGo f i fuel = .error (.retryError (e (i + fuel - 1))) := by
  induction fuel generalizing i with
  | zero => omega
  | succ n ih =>
    have h0 : f i = .error (e i) := by simpa using hfail 0 (by omega)
    by_cases hn : n = 0
    · subst hn
      simp [tenacityGo, h0]
    · simp only [tenacityGo, h0, if_neg hn]
      have := ih (i + 1) (by omega) (fun j hj => by
        have := hfail (j + 1) (by omega)
        simpa [Nat.add_assoc, Nat.add_comm 1 j] using this)
      rw [show i + 1 + n - 1 = i + (n + 1) - 1 from by omega] at this
      exact this

/-- **C2, counterexample.**  With the GPT-4 collaborator failing every
attempt with `Exception("boom")`, the wrapped Analyze stage propagates
`RetryError(Exception("boom"))`: the tenacity decorator (which does not
set `reraise=True`) does **not** let the wrapped call's exception
propagate unmodified. -/
theorem C2_counterexample :
    query_analysis (fun _ _ => .error (.exc "boom")) testParse t0 1 store0 testState
        = .error (.retryError (.exc "boom")) ∧
    PyErr.retryError (.exc "boom") ≠ PyErr.exc "boom" :=
  ⟨rfl, by decide⟩

/-- **C2, amended.**  The tenacity retry wrapper is applied to Analyze,
Enhance and Translate but not to Execute; it allows at most
`MAX_RETRIES` attempts (default 3) with exponential backoff, and after
`MAX_RETRIES` consecutive failures a `tenacity.RetryError` wrapping the
last failure propagates to the orchestrator (not the original exception
unmodified).  Conjuncts: the default; the three wrapped stages as
decorated; Execute undecorated (a failing client call propagates at
once and unmodified); the wrapper consults at most `MAX_RETRIES`
attempts; it succeeds at the first successful attempt; exhaustion wraps
the last failure in `RetryError`; the backoff delay doubles. -/
theorem C2_amended_retry_wrapper :
    settings.MAX_RETRIES = 3 ∧
    (∀ gpt4 p now dur st s, query_analysis gpt4 p now dur st s =
      tenacityCall settings.MAX_RETRIES
        (fun i => query_analysis_body (gpt4 i) p now dur st s)) ∧
    (∀ claude dur st s, query_enhancement claude dur st s =
      tenacityCall settings.MAX_RETRIES
        (fun i => query_enhancement_body (claude i) dur st s)) ∧
    (∀ claude dur st s, cypher_generation claude dur st s =
      tenacityCall settings.MAX_RETRIES
        (fun i => cypher_generation_body (claude i) dur st s)) ∧
    (∀ sess now dur st s e,
      Neo4jClient.execute_query sess (s.cypher_query.getD "None") (execParams s)
          = .error e →
      query_execution sess now dur st s = .error e) ∧
    (∀ f g : Nat → Except PyErr (MetricStore × PipelineState),
      (∀ i < settings.MAX_RETRIES, f i = g i) →
      tenacityCall settings.MAX_RETRIES f = tenacityCall settings.MAX_RETRIES g) ∧
    (∀ (f : Nat → Except PyErr (MetricStore × PipelineState)) k a,
      k < settings.MAX_RETRIES → (∀ j < k, ∃ e, f j = .error e) → f k = .ok a →
      tenacityCall settings.MAX_RETRIES f = .ok a) ∧
    (∀ (f : Nat → Except PyErr (MetricStore × PipelineState)) (e : Nat → PyErr),
      (∀ j < settings.MAX_RETRIES, f j = .error (e j)) →
      tenacityCall settings.MAX_RETRIES f
        = .error (.retryError (e (settings.MAX_RETRIES - 1)))) ∧
    (∀ k, 1 ≤ k → wait_exponential settings.RETRY_DELAY (k + 1)
        = 2 * wait_exponential settings.RETRY_DELAY k) := by
  refine ⟨rfl, fun _ _ _ _ _ _ => rfl, fun _ _ _ _ => rfl, fun _ _ _ _ => rfl,
    ?_, ?_, ?_, ?_, ?_⟩
  · intro sess now dur st s e h
    simp only [query_execution, query_execution_body, h]
    rfl
  · intro f g h
    exact tenacityGo_congr f g 0 settings.MAX_RETRIES (by simpa using h)
  · intro f k a hk hfail hok
    exact tenacityGo_ok f 0 settings.MAX_RETRIES k a hk (by simpa using hfail)
      (by simpa using hok)
  · intro f e hfail
    simpa using tenacityGo_exhaust f 0 settings.MAX_RETRIES e (by decide)
      (by simpa using hfail)
  · intro k hk
    unfold wait_exponential
    have h1 : k + 1 - 1 = (k - 1) + 1 := by omega
    rw [h1, pow_succ]
    ring

/-- An attempt-indexed LLM failing on the first `failures` attempts. -/
def flakyLLM (failures : Nat) : Nat → LLM :=
  fun i => if i < failures then (fun _ => .error (.exc "Temporary error"))
           else okLLM "recovered"

/-- **C2, witness.**  The amended wrapper facts exercised at concrete
inputs: two failures then success makes the wrapped Analyze succeed as
if called once on the recovered collaborator; constant failure yields
the wrapped `RetryError`; the backoff delay doubles from attempt 1 to
attempt 2. -/
theorem C2_amended_retry_wrapper_witness :
    query_analysis (flakyLLM 2) testParse t0 1 store0 testState
        = query_analysis_body (okLLM "recovered") testParse t0 1 store0 testState ∧
    query_analysis (fun _ _ => .error (.exc "down")) testParse t0 1 store0 testState
        = .error (.retryError (.exc "down")) ∧
    wait_exponential settings.RETRY_DELAY 2 = 2 * wait_exponential settings.RETRY_DELAY 1 ∧
    tenacityCall settings.MAX_RETRIES
        (fun i => if i < 3 then .error (.exc "x") else .ok (store0, testState))
      = tenacityCall settings.MAX_RETRIES
        (fun _ => .error (.exc "x")) ∧
    query_execution (fun _ _ _ => .error (.exc "Database error")) t0 1 store0 testState
      = .error (.exc "Database error") := by
  obtain ⟨a, ha⟩ : ∃ a, query_analysis_body (okLLM "recovered") testParse t0 1 store0 testState
      = .ok a := ⟨_, rfl⟩
  refine ⟨?_, ?_, ?_, ?_, ?_⟩
  · rw [(C2_amended_retry_wrapper.2.1 (flakyLLM 2) testParse t0 1 store0 testState)]
    rw [C2_amended_retry_wrapper.2.2.2.2.2.2.1
      (fun i => query_analysis_body (flakyLLM 2 i) testParse t0 1 store0 testState)
      2 a (by decide) (fun j hj => ⟨.exc "Temporary error", by
        interval_cases j <;> rfl⟩) (by simpa [flakyLLM] using ha)]
    exact ha.symm
  · exact C2_amended_retry_wrapper.2.2.2.2.2.2.2.1
      (fun i => query_analysis_body
        (((fun _ _ => .error (.exc "down")) : Nat → LLM) i)
        testParse t0 1 store0 testState)
      (fun _ => .exc "down") (fun j hj => rfl)
  · exact C2_amended_retry_wrapper.2.2.2.2.2.2.2.2 1 (by decide)
  · exact C2_amended_retry_wrapper.2.2.2.2.2.1 _ _
      (fun i hi => by
        have h3 : i < 3 := hi
        interval_cases i <;> rfl)
  · exact C2_amended_retry_wrapper.2.2.2.2.1 _ t0 1 store0 testState _ rfl


/-! ### Lemmas about the backoff loop (shared) -/

/-- The backoff loop returns the first successful attempt's value when
the earlier attempts fail with retryable exceptions. -/
theorem backoffGo_ok {α : Type} (f : Nat → Except PyErr α) (i fuel k : Nat) (a : α)
    (hk : k < fuel)
    (hfail : ∀ j < k, ∃ e, f (i + j) = .error e ∧ backoffRetryable e = true)
    (hok : f (i + k) = .ok a) :
    backoffGo f i fuel = .ok a := by
  induction fuel generalizing i k with
  | zero => omega
  | succ n ih =>
    cases k with
    | zero =>
      have : f i = .ok a := by simpa using hok
      simp [backoffGo, this]
    | succ m =>
      obtain ⟨e, he, hr⟩ := hfail 0 (by omega)
      have he' : f i = .error e := by simpa using he
      have hn : n ≠ 0 := by omega
      have hc : (backoffRetryable e && (n != 0)) = true := by
        rw [hr]
        simpa using hn
      simp only [backoffGo, he', if_pos hc]
      exact ih (i + 1) m (by omega)
        (fun j hj => by
          obtain ⟨e', he'', hr'⟩ := hfail (j + 1) (by omega)
          exact ⟨e', by simpa [Nat.add_assoc, Nat.add_comm 1 j] using he'', hr'⟩)
        (by simpa [Nat.add_assoc, Nat.add_comm 1 m] using hok)

/-- When every allowed try fails with a retryable exception, the backoff
loop re-raises the **last** try's exception unchanged. -/
theorem backoffGo_exhaust {α : Type} (f : Nat → Except PyErr α) (i fuel : Nat)
    (e : Nat → PyErr) (hpos : 0 < fuel)
    (hfail : ∀ j < fuel, f (i + j) = .error (e (i + j)) ∧
      backoffRetryable (e (i + j)) = true) :
    backoffGo f i fuel = .error (e (i + fuel - 1)) := by
  induction fuel generalizing i with
  | zero => omega
  | succ n ih =>
    obtain ⟨h0, hr0⟩ := hfail 0 (by omega)
    have h0' : f i = .error (e i) := by simpa using h0
    have hr0' : backoffRetryable (e i) = true := by simpa using hr0
    by_cases hn : n = 0
    · subst hn
      simp [backoffGo, h0']
    · have hc : (backoffRetryable (e i) && (n != 0)) = true := by
        rw [hr0']
        simpa using hn
      simp only [backoffGo, h0', if_pos hc]
      have := ih (i + 1) (by omega) (fun j hj => by
        obtain ⟨ha, hb⟩ := hfail (j + 1) (by omega)
        exact ⟨by simpa [Nat.add_assoc, Nat.add_comm 1 j] using ha,
          by simpa [Nat.add_assoc, Nat.add_comm 1 j] using hb⟩)
      rw [show i + 1 + n - 1 = i + (n + 1) - 1 from by omega] at this
      exact this

/-- A first-try non-retryable exception surfaces immediately. -/
theorem backoffGo_nonretryable {α : Type} (f : Nat → Except PyErr α) (i fuel : Nat)
    (e : PyErr) (hpos : 0 < fuel) (h : f i = .error e)
    (hnr : backoffRetryable e = false) :
    backoffGo f i fuel = .error e := by
  cases fuel with
  | zero => omega
  | succ n => simp [backoffGo, h, hnr]

/-- A session raising `ServiceUnavailable` on the first two calls and
returning the conftest row on the third. -/
def flakySession : Nat → String → PyDict → Except PyErr (List Row) :=
  fun i _ _ => if i < 2 then .error (.serviceUnavailable "db down") else .ok [row123]

/-- Deterministic collaborators over the flaky database session. -/
def flakyDbCollab : Collaborators :=
  { gpt4 := fun _ => okLLM "analysis",
    claudeEnh := fun _ => okLLM "enhanced query",
    claudeCyp := fun _ => okLLM "MATCH (n) RETURN n",
    parseAnalysis := testParse,
    session := flakySession }

/-- **C3, counterexample.**  With the database raising
`ServiceUnavailable` on the first two calls and answering normally on
the third, the run **completes successfully with one result** — the
backoff decorator on `Neo4jClient.execute_query` (`max_tries =
MAX_RETRIES = 3`) masks the first two failures, so the run does not
terminate with the underlying database error and the first failure
does not surface. -/
theorem C3_counterexample :
    ((run_pipeline flakyDbCollab t0 1
        "What are the network infrastructure requirements?"
        (some testContext)).toOption.bind (fun p => p.2.results)).map List.length
      = some 1 := by
  rfl

/-- **C3, amended.**  The Execute stage itself is not retried, but the
database client retries `ServiceUnavailable`/`SessionExpired`
internally with exponential backoff, `max_tries = MAX_RETRIES` (= 3)
calls in total: a success within the budget masks the earlier
failures (so the claimed scenario completes successfully); the
underlying database error surfaces — unwrapped — only when all
`MAX_RETRIES` calls fail, and a non-retryable error surfaces at once. -/
theorem C3_amended_backoff :
    settings.MAX_RETRIES = 3 ∧
    (∀ sess (q : String) (ps : PyDict) k a, k < settings.MAX_RETRIES →
      (∀ j < k, ∃ e, sess j q ps = .error e ∧ backoffRetryable e = true) →
      sess k q ps = .ok a →
      Neo4jClient.execute_query sess q ps = .ok a) ∧
    (∀ sess (q : String) (ps : PyDict) (e : Nat → PyErr),
      (∀ j < settings.MAX_RETRIES, sess j q ps = .error (e j) ∧
        backoffRetryable (e j) = true) →
      Neo4jClient.execute_query sess q ps
        = .error (e (settings.MAX_RETRIES - 1))) ∧
    (∀ sess (q : String) (ps : PyDict) e, sess 0 q ps = .error e →
      backoffRetryable e = false →
      Neo4jClient.execute_query sess q ps = .error e) ∧
    (∀ (sess : Nat → String → PyDict → Except PyErr (List Row)) now dur st s rows m,
      (∀ j < 2, sess j (s.cypher_query.getD "None") (execParams s)
        = .error (.serviceUnavailable m)) →
      sess 2 (s.cypher_query.getD "None") (execParams s) = .ok rows →
      query_execution sess now dur st s
        = query_execution_body (fun _ _ => .ok rows) now dur st s) := by
  refine ⟨rfl, ?_, ?_, ?_, ?_⟩
  · intro sess q ps k a hk hfail hok
    exact backoffGo_ok _ 0 settings.MAX_RETRIES k a hk (by simpa using hfail)
      (by simpa using hok)
  · intro sess q ps e hfail
    simpa using backoffGo_exhaust _ 0 settings.MAX_RETRIES e (by decide)
      (by simpa using hfail)
  · intro sess q ps e h hnr
    exact backoffGo_nonretryable (fun i => sess i q ps) 0 settings.MAX_RETRIES e
      (by decide) h hnr
  · intro sess now dur st s rows m hfail hok
    have h : Neo4jClient.execute_query sess (s.cypher_query.getD "None") (execParams s)
        = .ok rows :=
      backoffGo_ok (fun i => sess i (s.cypher_query.getD "None") (execParams s))
        0 settings.MAX_RETRIES 2 rows (by decide)
        (fun j hj => ⟨.serviceUnavailable m, by simpa using hfail j hj, rfl⟩)
        (by simpa using hok)
    simp only [query_execution, query_execution_body, h]

/-- **C3, witness.**  The amended facts at concrete sessions: the flaky
session's third try succeeds; constant `ServiceUnavailable` surfaces
unchanged after three tries; a generic exception surfaces at once; and
the Execute stage over the flaky session behaves as one successful call. -/
theorem C3_amended_backoff_witness :
    Neo4jClient.execute_query flakySession "MATCH (n) RETURN n" [] = .ok [row123] ∧
    Neo4jClient.execute_query (fun _ _ _ => .error (.serviceUnavailable "down"))
      "MATCH (n) RETURN n" [] = .error (.serviceUnavailable "down") ∧
    Neo4jClient.execute_query (fun _ _ _ => .error (.exc "boom"))
      "MATCH (n) RETURN n" [] = .error (.exc "boom") ∧
    query_execution flakySession t0 1 store0
        { testState with cypher_query := some "MATCH (n) RETURN n" }
      = query_execution_body (fun _ _ => .ok [row123]) t0 1 store0
        { testState with cypher_query := some "MATCH (n) RETURN n" } := by
  refine ⟨?_, ?_, ?_, ?_⟩
  · exact C3_amended_backoff.2.1 flakySession _ [] 2 [row123] (by decide)
      (fun j hj => ⟨.serviceUnavailable "db down", by
        have h2 : j < 2 := hj
        interval_cases j <;> exact ⟨rfl, rfl⟩⟩) rfl
  · exact C3_amended_backoff.2.2.1 _ _ [] (fun _ => .serviceUnavailable "down")
      (fun j hj => ⟨rfl, rfl⟩)
  · exact C3_amended_backoff.2.2.2.1 _ _ [] _ rfl rfl
  · exact C3_amended_backoff.2.2.2.2 flakySession t0 1 store0 _ [row123] "db down"
      (fun j hj => by
        have h2 : j < 2 := hj
        interval_cases j <;> rfl) rfl

/-! ### Success-elimination helpers (shared) -/

/-- A successful `Except` bind factors through a successful first step. -/
theorem except_bind_ok {ε α β : Type} (x : Except ε α) (f : α → Except ε β) (b : β) :
    x >>= f = .ok b ↔ ∃ a, x = .ok a ∧ f a = .ok b := by
  cases x with
  | error e => simp [Bind.bind, Except.bind]
  | ok a => simp [Bind.bind, Except.bind]

/-- A successful tenacity loop comes from a successful attempt. -/
theorem tenacityGo_ok_exists {α : Type} (f : Nat → Except PyErr α) (i fuel : Nat)
    (a : α) (h : tenacityGo f i fuel = .ok a) : ∃ j, f j = .ok a := by
  induction fuel generalizing i with
  | zero => simp [tenacityGo] at h
  | succ n ih =>
    rw [tenacityGo] at h
    cases hf : f i with
    | ok b =>
      rw [hf] at h
      exact ⟨i, by rw [hf]; exact h⟩
    | error e =>
      rw [hf] at h
      replace h : (if n = 0 then Except.error (PyErr.retryError e)
          else tenacityGo f (i + 1) n) = Except.ok a := h
      by_cases hn : n = 0
      · rw [if_pos hn] at h
        cases h
      · rw [if_neg hn] at h
        exact ih (i + 1) h

/-- Unpack a successful Analyze body: the collaborator answered, the
parse succeeded, and the output state is the `model_copy` update. -/
theorem query_analysis_body_ok {g : LLM} {p : String → Except PyErr QueryAnalysis}
    {now : PyDateTime} {dur : ℚ} {st : MetricStore} {s : PipelineState}
    {out : MetricStore × PipelineState}
    (h : query_analysis_body g p now dur st s = .ok out) :
    ∃ r a, g (analysisMessages s.original_query) = .ok r ∧
      p r.content = .ok a ∧
      out.2 = { s with
        query_context := { search_scope := a.document_scope, timestamp := now },
        enhanced_query := some a.query_intent,
        analysis_results := some a,
        history := s.history ++ (analysisMessages s.original_query).map Message.toStr
          ++ [r.content] } ∧
      out.1 = (st.add_metric s.performance_metrics "analysis_duration"
          (.num dur)).add_metric s.performance_metrics "analysis_confidence"
          (.num (mkRat 19 20)) := by
  simp only [query_analysis_body] at h
  rw [except_bind_ok] at h
  obtain ⟨r, hr, h⟩ := h
  rw [except_bind_ok] at h
  obtain ⟨a, ha, h⟩ := h
  refine ⟨r, a, hr, ha, ?_, ?_⟩ <;>
  · simp only [pure, Except.pure, Except.ok.injEq] at h
    rw [← h]

/-- Unpack a successful Enhance body. -/
theorem query_enhancement_body_ok {g : LLM} {dur : ℚ} {st : MetricStore}
    {s : PipelineState} {out : MetricStore × PipelineState}
    (h : query_enhancement_body g dur st s = .ok out) :
    ∃ r, g (enhancementMessages s) = .ok r ∧
      out.2 = { s with
        enhanced_query := some r.content,
        history := s.history ++ (enhancementMessages s).map Message.toStr
          ++ [r.content] } ∧
      out.1 = (st.add_metric s.performance_metrics "enhancement_duration"
          (.num dur)).add_metric s.performance_metrics "enhancement_quality_score"
          (.num (mkRat 9 10)) := by
  simp only [query_enhancement_body] at h
  rw [except_bind_ok] at h
  obtain ⟨r, hr, h⟩ := h
  refine ⟨r, hr, ?_, ?_⟩ <;>
  · simp only [pure, Except.pure, Except.ok.injEq] at h
    rw [← h]

/-- Unpack a successful Translate body. -/
theorem cypher_generation_body_ok {g : LLM} {dur : ℚ} {st : MetricStore}
    {s : PipelineState} {out : MetricStore × PipelineState}
    (h : cypher_generation_body g dur st s = .ok out) :
    ∃ r, g (cypherMessages s) = .ok r ∧
      out.2 = { s with
        cypher_query := some r.content,
        history := s.history ++ (cypherMessages s).map Message.toStr
          ++ [r.content] } ∧
      out.1 = (st.add_metric s.performance_metrics "cypher_generation_duration"
          (.num dur)).add_metric s.performance_metrics "query_complexity_score"
          (.num (mkRat 17 20)) := by
  simp only [cypher_generation_body] at h
  rw [except_bind_ok] at h
  obtain ⟨r, hr, h⟩ := h
  refine ⟨r, hr, ?_, ?_⟩ <;>
  · simp only [pure, Except.pure, Except.ok.injEq] at h
    rw [← h]

/-- Unpack a successful Execute body. -/
theorem query_execution_body_ok {execQ : String → PyDict → Except PyErr (List Row)}
    {now : PyDateTime} {dur : ℚ} {st : MetricStore} {s : PipelineState}
    {out : MetricStore × PipelineState}
    (h : query_execution_body execQ now dur st s = .ok out) :
    ∃ rows processed, execQ (s.cypher_query.getD "None") (execParams s) = .ok rows ∧
      rows.mapM (rowToResult s.query_context now) = .ok processed ∧
      out.2 = { s with
        results := some processed,
        performance_metrics := (st.alloc
          (((st.read s.performance_metrics).setKey "execution_time" (.num dur)).setKey
            "result_count" (.num processed.length))).2 } := by
  simp only [query_execution_body] at h
  rw [except_bind_ok] at h
  obtain ⟨rows, hrows, h⟩ := h
  rw [except_bind_ok] at h
  obtain ⟨processed, hproc, h⟩ := h
  refine ⟨rows, processed, hrows, hproc, ?_⟩
  simp only [pure, Except.pure, Except.ok.injEq] at h
  rw [← h]

/-- **C6.**  History is append-only: every successful stage (bodies and
their tenacity-wrapped versions alike) produces a state whose history
extends its input's history as a prefix (Execute leaves it unchanged),
and the error-handler transition passes the state — hence the history —
through untouched; so along every pipeline run the history length is
monotonically non-decreasing and the log is never truncated. -/
theorem C6_history_monotone :
    (∀ (g : LLM) p now dur st s out,
      query_analysis_body g p now dur st s = .ok out → s.history <+: out.2.history) ∧
    (∀ (g : LLM) dur st s out,
      query_enhancement_body g dur st s = .ok out → s.history <+: out.2.history) ∧
    (∀ (g : LLM) dur st s out,
      cypher_generation_body g dur st s = .ok out → s.history <+: out.2.history) ∧
    (∀ execQ now dur st s out,
      query_execution_body execQ now dur st s = .ok out → out.2.history = s.history) ∧
    (∀ gpt4 p now dur st s out,
      query_analysis gpt4 p now dur st s = .ok out → s.history <+: out.2.history) ∧
    (∀ claude dur st s out,
      query_enhancement claude dur st s = .ok out → s.history <+: out.2.history) ∧
    (∀ claude dur st s out,
      cypher_generation claude dur st s = .ok out → s.history <+: out.2.history) ∧
    (∀ s, (errorHandlerStep s).1.history = s.history) := by
  have hana : ∀ (g : LLM) p now dur st s out,
      query_analysis_body g p now dur st s = .ok out → s.history <+: out.2.history := by
    intro g p now dur st s out h
    obtain ⟨r, a, -, -, h2, -⟩ := query_analysis_body_ok h
    rw [h2]
    exact (List.prefix_append _ _).trans (List.prefix_append _ _)
  have henh : ∀ (g : LLM) dur st s out,
      query_enhancement_body g dur st s = .ok out → s.history <+: out.2.history := by
    intro g dur st s out h
    obtain ⟨r, -, h2, -⟩ := query_enhancement_body_ok h
    rw [h2]
    exact (List.prefix_append _ _).trans (List.prefix_append _ _)
  have hcyp : ∀ (g : LLM) dur st s out,
      cypher_generation_body g dur st s = .ok out → s.history <+: out.2.history := by
    intro g dur st s out h
    obtain ⟨r, -, h2, -⟩ := cypher_generation_body_ok h
    rw [h2]
    exact (List.prefix_append _ _).trans (List.prefix_append _ _)
  refine ⟨hana, henh, hcyp, ?_, ?_, ?_, ?_, fun s => rfl⟩
  · intro execQ now dur st s out h
    obtain ⟨rows, processed, -, -, h3⟩ := query_execution_body_ok h
    rw [h3]
  · intro gpt4 p now dur st s out h
    obtain ⟨j, hj⟩ := tenacityGo_ok_exists
      (fun i => query_analysis_body (gpt4 i) p now dur st s) 0 settings.MAX_RETRIES out h
    exact hana (gpt4 j) p now dur st s out hj
  · intro claude dur st s out h
    obtain ⟨j, hj⟩ := tenacityGo_ok_exists
      (fun i => query_enhancement_body (claude i) dur st s) 0 settings.MAX_RETRIES out h
    exact henh (claude j) dur st s out hj
  · intro claude dur st s out h
    obtain ⟨j, hj⟩ := tenacityGo_ok_exists
      (fun i => cypher_generation_body (claude i) dur st s) 0 settings.MAX_RETRIES out h
    exact hcyp (claude j) dur st s out hj

/-- A sample state with a non-empty history. -/
def historyState : PipelineState := { testState with history := ["pipeline start"] }

/-- **C6, witness.**  The prefix property at a concrete Analyze call on
a state that already carries history, and the error-handler transition
on the same state. -/
theorem C6_history_monotone_witness :
    historyState.history <+:
      ((query_analysis_body (okLLM "analysis") testParse t0 1 store0
          historyState).toOption.map (fun p => p.2.history)).getD [] ∧
    (errorHandlerStep historyState).1.history = historyState.history := by
  constructor
  · obtain ⟨a, ha⟩ : ∃ a, query_analysis_body (okLLM "analysis") testParse t0 1 store0
        historyState = .ok a := ⟨_, rfl⟩
    have := C6_history_monotone.1 (okLLM "analysis") testParse t0 1 store0
      historyState a ha
    rw [ha]
    simpa using this
  · exact C6_history_monotone.2.2.2.2.2.2.2 historyState

/-- **C5, counterexample.**  Analyze replaces the whole `query_context`
with a freshly constructed one: with a caller context whose
`relevance_threshold` is `0.8` and `max_results` is `50`, the produced
state's context carries the **defaults** `0.7` and `100` — the other
context fields do not keep the values the caller's context had. -/
theorem C5_counterexample :
    ((query_analysis_body (okLLM "analysis") testParse t0 1 store0
        testState).toOption.map
      (fun p => (p.2.query_context.relevance_threshold,
        p.2.query_context.max_results)))
      = some (mkRat 7 10, 100) ∧
    testState.query_context.relevance_threshold = mkRat 4 5 ∧
    testState.query_context.max_results = 50 ∧
    (mkRat 7 10 : ℚ) ≠ mkRat 4 5 ∧ (100 : Nat) ≠ 50 :=
  ⟨rfl, rfl, rfl, by decide, by decide⟩

/-- **C5, amended.**  A successful Analyze sets `enhanced_query` to the
extracted intent, populates the `analysis_results` side-channel, and
replaces `query_context` by a **new** `QueryContext` whose
`search_scope` is the extracted document scope and whose `timestamp` is
the call instant, while its remaining fields are **reset to the class
defaults** (`relevance_threshold = 0.7`, `max_results = 100`,
`include_metadata = true`) instead of keeping the caller's values. -/
theorem C5_amended_analysis_context (g : LLM)
    (p : String → Except PyErr QueryAnalysis) (now : PyDateTime) (dur : ℚ)
    (st : MetricStore) (s : PipelineState) (out : MetricStore × PipelineState)
    (r : LLMResponse) (a : QueryAnalysis)
    (hr : g (analysisMessages s.original_query) = .ok r)
    (ha : p r.content = .ok a)
    (h : query_analysis_body g p now dur st s = .ok out) :
    out.2.enhanced_query = some a.query_intent ∧
    out.2.analysis_results = some a ∧
    out.2.query_context.search_scope = a.document_scope ∧
    out.2.query_context.timestamp = now ∧
    out.2.query_context.relevance_threshold = mkRat 7 10 ∧
    out.2.query_context.max_results = 100 ∧
    out.2.query_context.include_metadata = true := by
  obtain ⟨r', a', hr', ha', h2, -⟩ := query_analysis_body_ok h
  rw [hr] at hr'
  injection hr' with hr'
  subst hr'
  rw [ha] at ha'
  injection ha' with ha'
  subst ha'
  rw [h2]
  exact ⟨rfl, rfl, rfl, rfl, rfl, rfl, rfl⟩

/-- **C5, witness.**  The amended Analyze contract at the deterministic
conftest collaborators: the produced `enhanced_query` is the extracted
intent and the produced scope is the extracted document scope. -/
theorem C5_amended_analysis_context_witness :
    ((query_analysis_body (okLLM "analysis") testParse t0 1 store0
        testState).toOption.map
      (fun p => (p.2.enhanced_query, p.2.query_context.search_scope)))
      = some (some testAnalysis.query_intent, testAnalysis.document_scope) := by
  obtain ⟨out, hout⟩ : ∃ o, query_analysis_body (okLLM "analysis") testParse t0 1
      store0 testState = .ok o := ⟨_, rfl⟩
  have h := C5_amended_analysis_context (okLLM "analysis") testParse t0 1 store0
    testState out ⟨"analysis"⟩ testAnalysis rfl rfl hout
  rw [hout]
  show some (out.2.enhanced_query, out.2.query_context.search_scope) = _
  rw [h.1, h.2.2.1]

/-- Reading a live dict right after `add_metric` sees the new binding
(the dict object is updated in place in the store). -/
theorem MetricStore.read_add_metric_self (st : MetricStore) (ref : Nat)
    (k : String) (v : MetricVal) (h : ref < st.length) :
    (st.add_metric ref k v).read ref = (st.read ref).setKey k v := by
  simp [MetricStore.add_metric, MetricStore.read,
    List.getElem?_set_self, h]

/-- `add_metric` keeps the store's length (no allocation). -/
theorem MetricStore.length_add_metric (st : MetricStore) (ref : Nat)
    (k : String) (v : MetricVal) :
    (st.add_metric ref k v).length = st.length := by
  simp [MetricStore.add_metric]

/-- **C4, counterexample.**  Analyze **does** mutate state reachable
from its input: `testState`'s `performance_metrics` dict (object `0` of
`store0`) is empty before the call, and after a successful Analyze the
same dict — still referenced by the unchanged input state — holds the
two analysis metrics.  The pydantic `model_copy` is shallow, so
`_update_metrics` on the copy writes through to the caller's dict. -/
theorem C4_counterexample :
    MetricStore.read store0 testState.performance_metrics = [] ∧
    ((query_analysis_body (okLLM "analysis") testParse t0 1 store0
        testState).toOption.map
      (fun p => p.1.read testState.performance_metrics))
      = some [("analysis_duration", MetricVal.num 1),
              ("analysis_confidence", MetricVal.num (mkRat 19 20))] :=
  ⟨rfl, rfl⟩

/-- **C4, amended.**  Each stage returns a new `PipelineState` record
derived from its input (the input record itself, with all its fields,
is untouched), and Analyze is deterministic: two runs on the same input
state with the same deterministic collaborator yield identical output
records — in particular identical `enhanced_query` — regardless of the
metric store they run over.  However the shallow `model_copy` shares
the `performance_metrics` dict between input and output
(`out.2.performance_metrics = s.performance_metrics`), and the stage
mutates that shared dict in place: after the call the input's dict
holds the two analysis metrics appended by `_update_metrics`. -/
theorem C4_amended_shallow_copy :
    (∀ (g : LLM) p now dur st st' s out out',
      query_analysis_body g p now dur st s = .ok out →
      query_analysis_body g p now dur st' s = .ok out' →
      out.2 = out'.2 ∧ out.2.enhanced_query = out'.2.enhanced_query) ∧
    (∀ (g : LLM) p now dur st s out,
      query_analysis_body g p now dur st s = .ok out →
      s.performance_metrics < st.length →
      out.2.performance_metrics = s.performance_metrics ∧
      out.1.read s.performance_metrics
        = ((st.read s.performance_metrics).setKey "analysis_duration"
            (.num dur)).setKey "analysis_confidence" (.num (mkRat 19 20))) := by
  constructor
  · intro g p now dur st st' s out out' h h'
    obtain ⟨r, a, hr, ha, h2, -⟩ := query_analysis_body_ok h
    obtain ⟨r', a', hr', ha', h2', -⟩ := query_analysis_body_ok h'
    rw [hr] at hr'
    injection hr' with hr'
    subst hr'
    rw [ha] at ha'
    injection ha' with ha'
    subst ha'
    rw [h2, h2']
    exact ⟨rfl, rfl⟩
  · intro g p now dur st s out h href
    obtain ⟨r, a, -, -, h2, h1⟩ := query_analysis_body_ok h
    constructor
    · rw [h2]
    · rw [h1]
      rw [MetricStore.read_add_metric_self _ _ _ _
        (by rw [MetricStore.length_add_metric]; exact href)]
      rw [MetricStore.read_add_metric_self _ _ _ _ href]

/-- **C4, witness.**  Determinism and the in-place metric mutation at
the concrete conftest fixtures: a second Analyze on the same input
state (over the store the first call produced) yields the same output
state, and the input's dict reads back with the two metrics. -/
theorem C4_amended_shallow_copy_witness :
    ((query_analysis_body (okLLM "analysis") testParse t0 1 store0
        testState).toOption.map (fun p => p.2.enhanced_query))
      = ((query_analysis_body (okLLM "analysis") testParse t0 1
          [[("analysis_duration", MetricVal.num 1),
            ("analysis_confidence", MetricVal.num (mkRat 19 20))]]
          testState).toOption.map (fun p => p.2.enhanced_query)) ∧
    ((query_analysis_body (okLLM "analysis") testParse t0 1 store0
        testState).toOption.map
      (fun p => p.1.read testState.performance_metrics))
      = some (((store0.read testState.performance_metrics).setKey
          "analysis_duration" (.num 1)).setKey "analysis_confidence"
          (.num (mkRat 19 20))) := by
  obtain ⟨out, hout⟩ : ∃ o, query_analysis_body (okLLM "analysis") testParse t0 1
      store0 testState = .ok o := ⟨_, rfl⟩
  obtain ⟨out', hout'⟩ : ∃ o, query_analysis_body (okLLM "analysis") testParse t0 1
      [[("analysis_duration", MetricVal.num 1),
        ("analysis_confidence", MetricVal.num (mkRat 19 20))]]
      testState = .ok o := ⟨_, rfl⟩
  constructor
  · rw [hout, hout']
    have := (C4_amended_shallow_copy.1 (okLLM "analysis") testParse t0 1 store0
      [[("analysis_duration", MetricVal.num 1),
        ("analysis_confidence", MetricVal.num (mkRat 19 20))]]
      testState out out' hout hout').2
    show some out.2.enhanced_query = some out'.2.enhanced_query
    rw [this]
  · rw [hout]
    have := (C4_amended_shallow_copy.2 (okLLM "analysis") testParse t0 1 store0
      testState out hout (by decide)).2
    show some (out.1.read testState.performance_metrics) = _
    rw [this]

/-! ### `mapM` facts over `Except` (shared) -/

/-- Every element of a successful `mapM` image comes from a successful
application on some list element. -/
theorem mapM_ok_mem {α β : Type} (f : α → Except PyErr β) (xs : List α)
    (ys : List β) (h : xs.mapM f = .ok ys) :
    ∀ y ∈ ys, ∃ x, x ∈ xs ∧ f x = .ok y := by
  rw [← List.mapM'_eq_mapM] at h
  induction xs generalizing ys with
  | nil =>
    simp only [List.mapM'] at h
    cases h
    simp
  | cons x xs ih =>
    simp only [List.mapM'] at h
    rw [except_bind_ok] at h
    obtain ⟨b, hb, h⟩ := h
    rw [except_bind_ok] at h
    obtain ⟨bs, hbs, h⟩ := h
    simp only [pure, Except.pure, Except.ok.injEq] at h
    subst h
    intro y hy
    rcases List.mem_cons.mp hy with hy | hy
    · exact ⟨x, List.mem_cons_self .., hy ▸ hb⟩
    · obtain ⟨x', hx', hfx'⟩ := ih bs hbs y hy
      exact ⟨x', List.mem_cons_of_mem _ hx', hfx'⟩

/-- A successful `mapM` preserves the length. -/
theorem mapM_ok_length {α β : Type} (f : α → Except PyErr β) (xs : List α)
    (ys : List β) (h : xs.mapM f = .ok ys) : ys.length = xs.length := by
  rw [← List.mapM'_eq_mapM] at h
  induction xs generalizing ys with
  | nil =>
    simp only [List.mapM'] at h
    cases h
    rfl
  | cons x xs ih =>
    simp only [List.mapM'] at h
    rw [except_bind_ok] at h
    obtain ⟨b, hb, h⟩ := h
    rw [except_bind_ok] at h
    obtain ⟨bs, hbs, h⟩ := h
    simp only [pure, Except.pure, Except.ok.injEq] at h
    subst h
    simp [ih bs hbs]

/-- The pydantic validation bounds on a constructed result's score. -/
theorem rowToResult_score_bounds (ctx : QueryContext) (now : PyDateTime)
    (r : Row) (qr : QueryResult) (h : rowToResult ctx now r = .ok qr) :
    0 ≤ qr.relevance_score ∧ qr.relevance_score ≤ 1 := by
  simp only [rowToResult, QueryResult.mk?] at h
  generalize (if ctx.include_metadata then r.metadata else none) = md at h
  split_ifs at h with h1 h2
  all_goals simp only [pure, Except.pure, Except.ok.injEq] at h
  subst h
  exact h1

/-- **C8.**  The row-to-result mapping: the relevance score is the
row's score, defaulting to `1.0` when the row has none; metadata is the
row's metadata exactly when `include_metadata` is set and `None`
otherwise; relationships are mapped field-for-field through `relToDict`
(`type` ← `type`, `target` ← `end_node`, `properties` ← `properties` or
empty dict), so every produced relationship dict carries the `type` and
`target` keys; and the `validate_relationships` validator accepts a
relationship list iff every entry has both required keys. -/
theorem C8_row_mapping (ctx : QueryContext) (now : PyDateTime) (r : Row)
    (qr : QueryResult) (h : rowToResult ctx now r = .ok qr) :
    qr.relevance_score = r.score.getD 1 ∧
    (r.score = none → qr.relevance_score = 1) ∧
    qr.metadata = (if ctx.include_metadata then r.metadata else none) ∧
    (ctx.include_metadata = false → qr.metadata = none) ∧
    qr.relationships = (r.relationships.getD []).map relToDict ∧
    (∀ rel ∈ qr.relationships, hasKey rel "type" = true ∧ hasKey rel "target" = true) ∧
    (∀ rels : List PyDict, validate_relationships rels = true ↔
      ∀ rel ∈ rels, hasKey rel "type" = true ∧ hasKey rel "target" = true) := by
  have hval : ∀ rels : List PyDict, validate_relationships rels = true ↔
      ∀ rel ∈ rels, hasKey rel "type" = true ∧ hasKey rel "target" = true := by
    intro rels
    simp [validate_relationships, List.all_eq_true]
  simp only [rowToResult, QueryResult.mk?] at h
  generalize hmd : (if ctx.include_metadata then r.metadata else none) = md at h
  split_ifs at h with h1 h2
  all_goals simp only [pure, Except.pure, Except.ok.injEq] at h
  subst h
  refine ⟨rfl, fun hs => by simp [hs], rfl, fun hm => by
      rw [show md = (if ctx.include_metadata then r.metadata else none)
        from hmd.symm, hm]; rfl, rfl, ?_, hval⟩
  intro rel hmem
  obtain ⟨rel0, -, hrel0⟩ := List.mem_map.mp hmem
  subst hrel0
  exact ⟨rfl, rfl⟩

/-- **C8, witness.**  The mapping at the conftest mock row: score
`0.95` (present, so no default), metadata included, and the single
`REQUIRES` relationship mapped field-for-field. -/
theorem C8_row_mapping_witness :
    ((rowToResult testContext t0 row123).toOption.map
      (fun q => (q.relevance_score, q.metadata, q.relationships)))
      = some (mkRat 19 20, some [("document_type", Json.str "Technical")],
        [[("type", Json.str "REQUIRES"), ("target", Json.str "456"),
          ("properties", Json.obj [("priority", Json.str "high")])]]) := by
  obtain ⟨qr, hqr⟩ : ∃ q, rowToResult testContext t0 row123 = .ok q := ⟨_, rfl⟩
  have h := C8_row_mapping testContext t0 row123 qr hqr
  rw [hqr]
  show some (qr.relevance_score, qr.metadata, qr.relationships) = _
  rw [h.1, h.2.2.1, h.2.2.2.2.1]
  rfl

/-- Unpack a successful pipeline run into its four successful stages. -/
theorem run_pipeline_ok {co : Collaborators} {now : PyDateTime} {dur : ℚ}
    {q : String} {ctx : Option QueryContext} {out : MetricStore × PipelineState}
    (h : run_pipeline co now dur q ctx = .ok out) :
    ∃ p1 p2 p3,
      query_analysis co.gpt4 co.parseAnalysis now dur (MetricStore.alloc [] []).1
        (initial_state q ctx now (MetricStore.alloc [] []).2) = .ok p1 ∧
      query_enhancement co.claudeEnh dur p1.1 p1.2 = .ok p2 ∧
      cypher_generation co.claudeCyp dur p2.1 p2.2 = .ok p3 ∧
      query_execution co.session now dur p3.1 p3.2 = .ok out := by
  simp only [run_pipeline] at h
  rw [except_bind_ok] at h
  obtain ⟨p1, h1, h⟩ := h
  obtain ⟨st1, s1⟩ := p1
  rw [except_bind_ok] at h
  obtain ⟨p2, h2, h⟩ := h
  obtain ⟨st2, s2⟩ := p2
  rw [except_bind_ok] at h
  obtain ⟨p3, h3, h⟩ := h
  obtain ⟨st3, s3⟩ := p3
  exact ⟨(st1, s1), (st2, s2), (st3, s3), h1, h2, h3, h⟩

/-- A session answering 101 copies of the conftest row. -/
def manyRowSession : Nat → String → PyDict → Except PyErr (List Row) :=
  fun _ _ _ => .ok (List.replicate 101 row123)

/-- Deterministic collaborators over the 101-row session. -/
def manyRowCollab : Collaborators := { flakyDbCollab with session := manyRowSession }

/-- **C7, counterexample.**  A run that succeeds can return more results
than `query_context.max_results`: nothing in `query_execution` truncates
the row list — `max_results` is only passed as a query parameter — so a
database answering 101 rows yields 101 results while the final state's
context (rebuilt by Analyze with the default) caps at 100. -/
theorem C7_counterexample :
    ((run_pipeline manyRowCollab t0 1
        "What are the network infrastructure requirements?"
        (some testContext)).toOption.bind (fun p => p.2.results)).map List.length
      = some 101 ∧
    ((run_pipeline manyRowCollab t0 1
        "What are the network infrastructure requirements?"
        (some testContext)).toOption.map
      (fun p => p.2.query_context.max_results)) = some 100 ∧
    100 < 101 :=
  ⟨rfl, rfl, by decide⟩

/-- **C7, amended.**  On every successful run each returned result's
`relevance_score` lies within `[0,1]` (pydantic validates it at
construction); but the number of results equals the number of rows the
database returned — the stage never clamps it to
`query_context.max_results`, which is only forwarded as a query
parameter. -/
theorem C7_amended_results :
    (∀ co now dur q ctx out,
      run_pipeline co now dur q ctx = .ok out →
      ∀ res ∈ out.2.results.getD [],
        0 ≤ res.relevance_score ∧ res.relevance_score ≤ 1) ∧
    (∀ execQ now dur st s out rows,
      execQ (s.cypher_query.getD "None") (execParams s) = .ok rows →
      query_execution_body execQ now dur st s = .ok out →
      (out.2.results.getD []).length = rows.length) := by
  constructor
  · intro co now dur q ctx out h res hres
    obtain ⟨p1, p2, p3, -, -, -, h4⟩ := run_pipeline_ok h
    obtain ⟨rows, processed, -, hproc, h5⟩ := query_execution_body_ok h4
    rw [h5] at hres
    replace hres : res ∈ processed := hres
    obtain ⟨row, -, hrow⟩ := mapM_ok_mem _ rows processed hproc res hres
    exact rowToResult_score_bounds _ _ _ _ hrow
  · intro execQ now dur st s out rows hexec h
    obtain ⟨rows', processed, hrows', hproc, h5⟩ := query_execution_body_ok h
    rw [hexec] at hrows'
    injection hrows' with hrows'
    subst hrows'
    rw [h5]
    exact mapM_ok_length _ _ _ hproc

/-- **C7, witness.**  The amended facts at concrete runs: on the
flaky-database run every returned score is within bounds, and a
two-row database answer produces exactly two results. -/
theorem C7_amended_results_witness :
    (((run_pipeline flakyDbCollab t0 1
        "What are the network infrastructure requirements?"
        (some testContext)).toOption.bind (fun p => p.2.results)).getD []).all
      (fun res => decide (0 ≤ res.relevance_score) &&
        decide (res.relevance_score ≤ 1)) = true ∧
    ((query_execution_body (fun _ _ => .ok [row123, row123]) t0 1 store0
        { testState with cypher_query := some "MATCH (n) RETURN n" }).toOption.map
      (fun p => (p.2.results.getD []).length)) = some 2 := by
  constructor
  · obtain ⟨out, hout⟩ : ∃ o, run_pipeline flakyDbCollab t0 1
        "What are the network infrastructure requirements?"
        (some testContext) = .ok o := ⟨_, rfl⟩
    have h := C7_amended_results.1 flakyDbCollab t0 1
      "What are the network infrastructure requirements?" (some testContext) out hout
    rw [hout]
    rw [List.all_eq_true]
    intro res hres
    obtain ⟨hl, hr⟩ := h res hres
    simp [hl, hr]
  · obtain ⟨out, hout⟩ : ∃ o, query_execution_body
        ((fun _ _ => .ok [row123, row123]) :
          String → PyDict → Except PyErr (List Row)) t0 1 store0
        { testState with cypher_query := some "MATCH (n) RETURN n" } = .ok o :=
      ⟨_, rfl⟩
    have h := C7_amended_results.2
      ((fun _ _ => .ok [row123, row123]) :
        String → PyDict → Except PyErr (List Row)) t0 1 store0
      { testState with cypher_query := some "MATCH (n) RETURN n" } out
      [row123, row123] rfl hout
    rw [hout]
    show some (out.2.results.getD []).length = _
    rw [h]
    rfl

/-! ### Decimal print/parse round trip (shared, for C9) -/

/-- `digitChar` inverts through `digitVal` on the decimal digits. -/
theorem digitVal_digitChar (d : Nat) (h : d < 10) : digitVal (digitChar d) = d := by
  interval_cases d <;> rfl

/-- `digitChar` always yields a digit character. -/
theorem isDig_digitChar (d : Nat) : isDig (digitChar d) = true := by
  rcases d with _|_|_|_|_|_|_|_|_|d <;> rfl

/-- Horner evaluation of a reversed little-endian digit list. -/
theorem foldl_reverse_ofDigits (ds : List Nat) (a : Nat) :
    ds.reverse.foldl (fun x d => 10 * x + d) a
      = a * 10 ^ ds.length + Nat.ofDigits 10 ds := by
  induction ds generalizing a with
  | nil => simp
  | cons d t ih =>
    simp only [List.reverse_cons, List.foldl_append, List.foldl_cons,
      List.foldl_nil, ih, Nat.ofDigits_cons, List.length_cons]
    ring

/-- Digit-wise congruence for the Horner fold. -/
theorem foldl_digits_congr (l : List Nat) (hl : ∀ d ∈ l, d < 10) (a : Nat) :
    l.foldl (fun x d => 10 * x + digitVal (digitChar d)) a
      = l.foldl (fun x d => 10 * x + d) a := by
  induction l generalizing a with
  | nil => rfl
  | cons d t ih =>
    simp only [List.foldl_cons]
    rw [digitVal_digitChar d (hl d (List.mem_cons_self ..))]
    exact ih (fun x hx => hl x (List.mem_cons_of_mem _ hx)) _

/-- Reading back the decimal print of a natural number. -/
theorem charsVal_natChars (n : Nat) : charsVal (natChars n) = n := by
  unfold natChars
  by_cases hn : n = 0
  · simp [hn, charsVal, digitVal]
  · rw [if_neg hn]
    unfold charsVal
    rw [List.foldl_map]
    have := foldl_digits_congr (Nat.digits 10 n).reverse
      (fun d hd => Nat.digits_lt_base (by omega) (List.mem_reverse.mp hd)) 0
    simp only [this]
    rw [foldl_reverse_ofDigits]
    simp [Nat.ofDigits_digits]

/-- Leading zeros do not change the parsed value. -/
theorem charsVal_replicate_zero (k : Nat) (cs : List Char) :
    charsVal (List.replicate k '0' ++ cs) = charsVal cs := by
  induction k with
  | zero => rfl
  | succ m ih => simpa [List.replicate_succ, charsVal] using ih

/-- Reading back a zero-padded decimal print. -/
theorem charsVal_padChars (w n : Nat) : charsVal (padChars w n) = n := by
  unfold padChars
  rw [charsVal_replicate_zero, charsVal_natChars]

/-- A zero-padded decimal print consists of digit characters. -/
theorem padChars_all_digits (w n : Nat) : ∀ c ∈ padChars w n, isDig c = true := by
  intro c hc
  unfold padChars at hc
  rcases List.mem_append.mp hc with hc | hc
  · rw [List.eq_of_mem_replicate hc]
    rfl
  · unfold natChars at hc
    by_cases hn : n = 0
    · rw [if_pos hn] at hc
      simp only [List.mem_singleton] at hc
      rw [hc]
      rfl
    · rw [if_neg hn] at hc
      obtain ⟨d, -, hd⟩ := List.mem_map.mp hc
      rw [← hd]
      exact isDig_digitChar d

/-- A zero-padded decimal print is never empty. -/
theorem padChars_ne_nil (w n : Nat) : padChars w n ≠ [] := by
  unfold padChars natChars
  by_cases hn : n = 0
  · simp [hn]
  · rw [if_neg hn]
    simp [hn, Nat.digits_ne_nil_iff_ne_zero]

/-- `takeWhile` passes over a block of satisfying elements. -/
theorem takeWhile_append_all {p : Char → Bool} {xs ys : List Char}
    (h : ∀ c ∈ xs, p c = true) :
    (xs ++ ys).takeWhile p = xs ++ ys.takeWhile p := by
  induction xs with
  | nil => rfl
  | cons x t ih =>
    have hx := h x (List.mem_cons_self ..)
    have ht := ih (fun c hc => h c (List.mem_cons_of_mem _ hc))
    simp [List.takeWhile_cons, hx, ht]

/-- `dropWhile` passes over a block of satisfying elements. -/
theorem dropWhile_append_all {p : Char → Bool} {xs ys : List Char}
    (h : ∀ c ∈ xs, p c = true) :
    (xs ++ ys).dropWhile p = ys.dropWhile p := by
  induction xs with
  | nil => rfl
  | cons x t ih =>
    have hx := h x (List.mem_cons_self ..)
    have ht := ih (fun c hc => h c (List.mem_cons_of_mem _ hc))
    simp [List.dropWhile_cons, hx, ht]

/-- `readNat` consumes exactly a zero-padded number before a
non-digit separator. -/
theorem readNat_pad_sep (w n : Nat) (c : Char) (rest : List Char)
    (hc : isDig c = false) :
    readNat (padChars w n ++ c :: rest) = some (n, c :: rest) := by
  unfold readNat
  rw [takeWhile_append_all (padChars_all_digits w n),
    dropWhile_append_all (padChars_all_digits w n)]
  rw [List.takeWhile_cons_of_neg (by simp [hc]),
    List.dropWhile_cons_of_neg (by simp [hc])]
  rw [List.append_nil]
  cases hpd : padChars w n with
  | nil => exact absurd hpd (padChars_ne_nil w n)
  | cons d t =>
    show some (charsVal (d :: t), c :: rest) = some (n, c :: rest)
    rw [← hpd, charsVal_padChars]

/-- `readNat` consumes a whole zero-padded number at the end. -/
theorem readNat_pad_nil (w n : Nat) :
    readNat (padChars w n) = some (n, []) := by
  unfold readNat
  rw [List.takeWhile_eq_self_iff.mpr (padChars_all_digits w n),
    List.dropWhile_eq_nil_iff.mpr (padChars_all_digits w n)]
  cases hpd : padChars w n with
  | nil => exact absurd hpd (padChars_ne_nil w n)
  | cons d t =>
    show some (charsVal (d :: t), []) = some (n, [])
    rw [← hpd, charsVal_padChars]

/-- Separators are not digits; specialized `readNat` steps. -/
theorem readNat_pad_dash (w n : Nat) (rest : List Char) :
    readNat (padChars w n ++ '-' :: rest) = some (n, '-' :: rest) :=
  readNat_pad_sep w n '-' rest rfl

/-- `readNat` before the date/time separator. -/
theorem readNat_pad_space (w n : Nat) (rest : List Char) :
    readNat (padChars w n ++ ' ' :: rest) = some (n, ' ' :: rest) :=
  readNat_pad_sep w n ' ' rest rfl

/-- `readNat` before a time-field separator. -/
theorem readNat_pad_colon (w n : Nat) (rest : List Char) :
    readNat (padChars w n ++ ':' :: rest) = some (n, ':' :: rest) :=
  readNat_pad_sep w n ':' rest rfl

/-- `readNat` before the fractional-seconds dot. -/
theorem readNat_pad_dot (w n : Nat) (rest : List Char) :
    readNat (padChars w n ++ '.' :: rest) = some (n, '.' :: rest) :=
  readNat_pad_sep w n '.' rest rfl

/-- `expectChar` consumes its own character. -/
theorem expectChar_self (c : Char) (rest : List Char) :
    expectChar c (c :: rest) = some rest := by
  simp [expectChar]

set_option maxHeartbeats 1600000 in
/-- `str(datetime)` parses back to the same datetime (the pydantic
round trip behind save/load). -/
theorem PyDateTime.parse_toStr (t : PyDateTime) :
    PyDateTime.parse? t.toStr = some t := by
  obtain ⟨y, mo, d, h, mi, s, us⟩ := t
  show PyDateTime.parseChars (PyDateTime.toChars ⟨y, mo, d, h, mi, s, us⟩) = _
  unfold PyDateTime.toChars
  by_cases hus : us = 0
  · subst hus
    rw [if_pos rfl, List.append_nil]
    simp only [PyDateTime.parseChars, Option.bind_eq_bind,
      List.append_assoc, List.cons_append, readNat_pad_dash, readNat_pad_space,
      readNat_pad_colon, readNat_pad_dot, readNat_pad_nil, expectChar_self,
      Option.some_bind]
  · rw [if_neg hus]
    simp only [PyDateTime.parseChars, Option.bind_eq_bind,
      List.append_assoc, List.cons_append, readNat_pad_dash, readNat_pad_space,
      readNat_pad_colon, readNat_pad_dot, readNat_pad_nil, expectChar_self,
      Option.some_bind]
    simp

/-- Binding a ready `ok` value just applies the continuation. -/
theorem except_ok_bind {ε α β : Type} (a : α) (f : α → Except ε β) :
    (Except.ok a : Except ε α) >>= f = f a := rfl

/-- Mapping `Json.obj` wrappers back off a relationship list. -/
theorem mapM_obj_map (rels : List PyDict) :
    (rels.map Json.obj).mapM (fun x => match x with
      | Json.obj e => (pure e : Except PyErr PyDict)
      | _ => .error (.validationError "relationship")) = .ok rels := by
  rw [← List.mapM'_eq_mapM]
  induction rels with
  | nil => rfl
  | cons rel t ih =>
    simp only [List.map_cons, List.mapM', ih]
    rfl

/-- `List.mapM` in its accumulator form, as `simp` leaves it. -/
theorem mapM_obj_map_loop (rels : List PyDict) :
    List.mapM.loop (fun x => match x with
      | Json.obj e => (pure e : Except PyErr PyDict)
      | _ => .error (.validationError "relationship"))
      (rels.map Json.obj) [] = .ok rels :=
  mapM_obj_map rels

/-- Validating a dumped record restores the record, field for field. -/
theorem model_validate_dump (now : PyDateTime) (r : QueryResult) (h : r.valid) :
    model_validate_result now (model_dump_result r) = .ok r := by
  obtain ⟨h0, h1, h2⟩ := h
  cases hm : r.metadata with
  | none =>
    simp [model_dump_result, model_validate_result, hm, mapM_obj_map,
      PyDateTime.parse_toStr, QueryResult.mk?, h0, h1, h2]
    simp [dictGet, mapM_obj_map, PyDateTime.parse_toStr, QueryResult.mk?,
      h0, h1, h2]
    rw [mapM_obj_map_loop, except_ok_bind, if_pos h2, ← hm]
    rfl
  | some m =>
    simp [model_dump_result, model_validate_result, hm, mapM_obj_map,
      PyDateTime.parse_toStr, QueryResult.mk?, h0, h1, h2]
    simp [dictGet, mapM_obj_map, PyDateTime.parse_toStr, QueryResult.mk?,
      h0, h1, h2]
    rw [mapM_obj_map_loop, except_ok_bind, if_pos h2, ← hm]
    rfl

/-- **C9.**  Serializing a list of valid `QueryResult`s with
`save_results` (json format: `model_dump` per record, `default=str` on
the timestamps) and loading it back with `load_results`
(`model_validate` per record) reproduces a field-equal list, the
relationship sub-records and timestamps included. -/
theorem C9_save_load_roundtrip (now : PyDateTime) (rs : List QueryResult)
    (h : ∀ r ∈ rs, r.valid) :
    load_results now (save_results rs) = .ok rs := by
  simp only [save_results, load_results]
  rw [← List.mapM'_eq_mapM]
  induction rs with
  | nil => rfl
  | cons r t ih =>
    simp only [List.map_cons, List.mapM']
    rw [model_validate_dump now r (h r (List.mem_cons_self ..)),
      ih (fun x hx => h x (List.mem_cons_of_mem _ hx))]
    rfl

/-- A concrete valid result with metadata and one relationship. -/
def sampleResult : QueryResult :=
  { node_id := "123",
    content := [("title", Json.str "Network Infrastructure Tender")],
    relevance_score := mkRat 19 20,
    metadata := some [("document_type", Json.str "Technical")],
    relationships := [[("type", Json.str "REQUIRES"),
      ("target", Json.str "456"),
      ("properties", Json.obj [("priority", Json.str "high")])]],
    timestamp := ⟨2024, 1, 15, 10, 30, 0, 123456⟩ }

/-- **C9, witness.**  The round trip at a concrete one-element list
whose record carries metadata, a relationship sub-record and a
fractional-second timestamp. -/
theorem C9_save_load_roundtrip_witness :
    load_results t0 (save_results [sampleResult]) = .ok [sampleResult] :=
  C9_save_load_roundtrip t0 [sampleResult] (by decide)

/-! ### Canonical serialization facts (shared, for C10) -/

/-- The object case of the serializer, with the `attach` bookkeeping
removed. -/
theorem dumpsSorted_obj (kvs : PyDict) :
    dumpsSorted (Json.obj kvs)
      = dumpsObjRendered (kvs.map (fun kv => (kv.1, dumpsSorted kv.2))) := by
  simp only [dumpsSorted]
  exact congrArg dumpsObjRendered
    (List.attach_map_val kvs (fun kv => (kv.1, dumpsSorted kv.2)))

/-- Two rendered-entry lists that are permutations of each other with
distinct keys sort to the same list, hence render to the same string. -/
theorem dumpsObjRendered_perm (e1 e2 : List (String × String))
    (hperm : e1.Perm e2) (hnodup : (e1.map Prod.fst).Nodup) :
    dumpsObjRendered e1 = dumpsObjRendered e2 := by
  unfold dumpsObjRendered
  suffices hs : e1.mergeSort (fun a b => a.1 ≤ b.1)
      = e2.mergeSort (fun a b => a.1 ≤ b.1) by rw [hs]
  have htrans : ∀ a b c : String × String,
      (decide (a.1 ≤ b.1)) = true → (decide (b.1 ≤ c.1)) = true →
      (decide (a.1 ≤ c.1)) = true := by
    intro a b c hab hbc
    simp only [decide_eq_true_eq] at *
    exact le_trans hab hbc
  have htotal : ∀ a b : String × String,
      ((decide (a.1 ≤ b.1)) || (decide (b.1 ≤ a.1))) = true := by
    intro a b
    rcases le_total a.1 b.1 with h | h <;> simp [h]
  have hperm1 : (e1.mergeSort (fun a b => a.1 ≤ b.1)).Perm e1 :=
    List.mergeSort_perm e1 _
  have hperm2 : (e2.mergeSort (fun a b => a.1 ≤ b.1)).Perm e2 :=
    List.mergeSort_perm e2 _
  have hsort1 := List.sorted_mergeSort htrans htotal e1
  have hsort2 := List.sorted_mergeSort htrans htotal e2
  have hnodup2 : (e2.map Prod.fst).Nodup := ((hperm.map Prod.fst).nodup_iff).mp hnodup
  have hstrict : ∀ (e : List (String × String)),
      (e.map Prod.fst).Nodup →
      List.Pairwise (fun a b : String × String => decide (a.1 ≤ b.1) = true)
        (e.mergeSort (fun a b => a.1 ≤ b.1)) →
      List.Pairwise (fun a b : String × String => a.1 < b.1)
        (e.mergeSort (fun a b => a.1 ≤ b.1)) := by
    intro e hnd hsorted
    have hnds : ((e.mergeSort (fun a b => a.1 ≤ b.1)).map Prod.fst).Nodup :=
      (((List.mergeSort_perm e _).map Prod.fst).nodup_iff).mpr hnd
    have hne := List.pairwise_map.mp hnds
    exact (hsorted.and hne).imp (fun h => by
      obtain ⟨hle, hne⟩ := h
      simp only [decide_eq_true_eq] at hle
      exact lt_of_le_of_ne hle hne)
  haveI : IsAntisymm (String × String) (fun a b => a.1 < b.1) :=
    ⟨fun a b h1 h2 => absurd h2 (lt_asymm h1)⟩
  exact List.eq_of_perm_of_sorted
    ((hperm1.trans hperm).trans hperm2.symm)
    (hstrict e1 hnodup hsort1) (hstrict e2 hnodup2 hsort2)

/-- Objects with the same entries in any insertion order (keys
distinct) serialize identically. -/
theorem dumpsSorted_obj_perm (c1 c2 : PyDict) (hperm : c1.Perm c2)
    (hnodup : (c1.map Prod.fst).Nodup) :
    dumpsSorted (Json.obj c1) = dumpsSorted (Json.obj c2) := by
  rw [dumpsSorted_obj, dumpsSorted_obj]
  refine dumpsObjRendered_perm _ _ (hperm.map _) ?_
  have : (c1.map (fun kv => (kv.1, dumpsSorted kv.2))).map Prod.fst
      = c1.map Prod.fst := by
    simp [List.map_map, Function.comp]
  rw [this]
  exact hnodup

/-- **C10.**  `cache_key` is deterministic and insertion-order
independent: for the same query and the same context key-value pairs in
any insertion order (keys distinct, per Python dict semantics), the
canonical sorted-keys serialization — and hence the SHA-256 hex
digest — coincides. -/
theorem C10_cache_key_canonical (q1 q2 : String) (c1 c2 : PyDict)
    (hq : q1 = q2) (hperm : c1.Perm c2) (hnodup : (c1.map Prod.fst).Nodup) :
    cache_key q1 c1 = cache_key q2 c2 := by
  subst hq
  unfold cache_key
  refine congrArg sha256hex ?_
  rw [dumpsSorted_obj, dumpsSorted_obj]
  simp only [List.map_cons, List.map_nil]
  rw [dumpsSorted_obj_perm c1 c2 hperm hnodup]

/-- **C10, witness.**  Two insertion orders of the same three-entry
context produce the same cache key. -/
theorem C10_cache_key_canonical_witness :
    cache_key "What are the network infrastructure requirements?"
        [("search_scope", Json.arr [Json.str "Technical"]),
         ("relevance_threshold", Json.num (mkRat 7 10)),
         ("max_results", Json.num 100)]
      = cache_key "What are the network infrastructure requirements?"
        [("max_results", Json.num 100),
         ("search_scope", Json.arr [Json.str "Technical"]),
         ("relevance_threshold", Json.num (mkRat 7 10))] :=
  C10_cache_key_canonical _ _ _ _ rfl
    ((List.Perm.cons _ (List.Perm.swap _ _ _)).trans (List.Perm.swap _ _ _))
    (by decide)
